import Mathlib

/-!
Verification of the pending-phase cluster reconciler
(`controller/cluster/pending.go`).

The Go source is shallowly embedded: the cluster record, the controller
configuration and the object caches become plain Lean structures, and each
reconcile step becomes a pure function from a cluster to a `StepRes`
describing the cluster object after the call (Go mutates the record in
place), the returned non-nil/nil cluster signal, the side effects issued
against the host orchestrator, and the returned error.  External
collaborators (the certificate library, template loaders, the orchestrator
client, the `createTokens` / `createApiserverAuth` / `createApiserverSSH`
generators and `kubernetes.NamespaceName`, none of which are part of the
sources) are oracles supplied through an `Env` record, modelled from the
spec where the spec constrains them.
-/

deriving instance DecidableEq for Except

/-- Lifecycle phase of a cluster record (`api.ClusterStatusPhase`). -/
inductive ClusterPhase where
  | unknown
  | pending
  | launching
  | failed
  | running
  | deleting
  deriving DecidableEq, Repr

/-- Object metadata; only the name is read by this reconciler. -/
structure ObjectMeta where
  name : String := ""
  deriving DecidableEq, Repr

/-- `api.RootCA`: key and certificate bytes, both absent initially. -/
structure RootCA where
  key : Option String := none
  cert : Option String := none
  deriving DecidableEq, Repr

/-- The AWS sub-record of the cloud spec; its contents are irrelevant here. -/
structure AWSCloudSpec where
  deriving DecidableEq, Repr

/-- `api.CloudSpec`: only the AWS sub-record is inspected by this reconciler. -/
structure CloudSpec where
  aws : Option AWSCloudSpec := none
  deriving DecidableEq, Repr

/-- `api.ClusterSpec`. -/
structure ClusterSpec where
  masterVersion : String := ""
  cloud : Option CloudSpec := none
  deriving DecidableEq, Repr

/-- `api.ClusterAddress`. -/
structure ClusterAddress where
  url : String := ""
  apiserverExternalPort : Int := 0
  deriving DecidableEq, Repr

/-- `api.ClusterStatus`; time is modelled as a natural-number tick. -/
structure ClusterStatus where
  phase : ClusterPhase := ClusterPhase.pending
  lastTransitionTime : Nat := 0
  rootCA : RootCA := {}
  apiserverSSH : String := ""
  deriving DecidableEq, Repr

/-- `api.Cluster`, the unit of reconciliation. -/
structure Cluster where
  metadata : ObjectMeta := {}
  spec : ClusterSpec := {}
  address : ClusterAddress := {}
  status : ClusterStatus := {}
  deriving DecidableEq, Repr

/-- One port entry of a service (`v1.ServicePort`). -/
structure ServicePort where
  nodePort : Int := 0
  deriving DecidableEq, Repr

/-- A service in the service cache (`v1.Service`); only its ports matter. -/
structure Service where
  ports : List ServicePort := []
  deriving DecidableEq, Repr

/-- A deployment in the deployment cache: its namespace (used by the
`namespace` index) and its `role` selector match label. -/
structure Deployment where
  ns : String := ""
  role : Option String := none
  deriving DecidableEq, Repr

/-- One entry of the version registry (`api.MasterVersion`). -/
structure MasterVersion where
  id : String := ""
  etcdOperatorDeploymentYaml : String := ""
  apiserverDeploymentYaml : String := ""
  controllerDeploymentYaml : String := ""
  schedulerDeploymentYaml : String := ""
  etcdClusterYaml : String := ""
  deriving DecidableEq, Repr

/-- Errors returned by the reconciler; constructors mirror the `fmt.Errorf`
wrappers of the source, `external` stands for an error produced by an
external collaborator. -/
inductive GoErr where
  | external (msg : String)
  | noFreeNodePort (minP maxP : Int)
  | failedCreateRootCA (cause : GoErr)
  | failedToGenerate (kind : String) (cause : GoErr)
  | failedToCreate (kind : String) (cause : GoErr)
  | failedToLoad (kind : String) (cause : GoErr)
  | unknownMasterVersion (cluster ver : String)
  deriving DecidableEq, Repr

/-- Rendering of an error, mirroring the `fmt.Errorf` format strings. -/
def GoErr.message : GoErr → String
  | .external msg => msg
  | .noFreeNodePort a b =>
      "no free NodePort available within the given range " ++ toString a ++ "-" ++ toString b
  | .failedCreateRootCA e => "failed to create root-ca: " ++ e.message
  | .failedToGenerate k e => "failed to generate " ++ k ++ ": " ++ e.message
  | .failedToCreate k e => "failed to create " ++ k ++ ": " ++ e.message
  | .failedToLoad k e => "failed to load " ++ k ++ ": " ++ e.message
  | .unknownMasterVersion n v =>
      "unknown new cluster \"" ++ n ++ "\" master version \"" ++ v ++ "\""

/-- A side effect issued against the host orchestrator or the event stream. -/
inductive Effect where
  | createSecret (ns name : String)
  | deleteSecret (ns name : String)
  | createService (ns name : String)
  | createServiceAccount (ns name : String)
  | createClusterRoleBinding (name : String)
  | createConfigMap (ns name : String)
  | createPvc (ns name : String)
  | createDeployment (ns name : String)
  | createEtcdCluster (ns name : String)
  | createAddon (ns name : String)
  | event (phase msg : String)
  deriving DecidableEq, Repr

/-- Effects that only the steps after the secrets step can produce; the
yield-on-mutation rule promises that none of them happens in a reconcile
that returns a still-pending mutated cluster. -/
def isLateEffect : Effect → Bool
  | .createConfigMap _ _ => true
  | .createPvc _ _ => true
  | .createDeployment _ _ => true
  | .createEtcdCluster _ _ => true
  | .createAddon _ _ => true
  | _ => false

/-- Result of one reconcile step (or of the whole reconcile): the cluster
object after the call (Go mutates it in place), whether a non-nil cluster
was returned (when `yield` is true the returned pointer aliases `state`),
the side effects issued so far, and the returned error. -/
structure StepRes where
  state : Cluster
  yield : Bool
  effects : List Effect
  err : Option GoErr
  deriving DecidableEq, Repr

/-- Membership in a cache indexed by `<namespace>/<name>` keys. -/
def storeHas (st : List String) (k : String) : Bool :=
  k ∈ st

/-- Membership in a key-value cache (used for the service cache, whose
values are also listed by the port allocator). -/
def storeHasKV {α : Type} (st : List (String × α)) (k : String) : Bool :=
  st.any (fun e => e.1 == k)

/-- The certificate request built by `pendingCreateRootCA`
(`csr.CertificateRequest` with a basic key request and a CA config). -/
structure CertificateRequest where
  cn : String
  keyAlgo : String
  keySize : Nat
  caExpiry : String
  deriving DecidableEq, Repr

/-- The controller configuration together with its object caches.
`nsName` stands for `kubernetes.NamespaceName`.  Modelled from the spec:
the function itself is not part of the sources; the spec only fixes that
the namespace is a deterministic function of the cluster name. -/
structure ClusterController where
  dc : String := ""
  externalURL : String := ""
  masterResourcesPath : String := ""
  minAPIServerPort : Int := 0
  maxAPIServerPort : Int := 0
  defaultMasterVersion : MasterVersion := {}
  versions : List (String × MasterVersion) := []
  nsName : String → String
  secretStore : List String := []
  serviceStore : List (String × Service) := []
  saStore : List String := []
  clusterRoleBindingStore : List String := []
  cmStore : List String := []
  pvcStore : List String := []
  depStore : List Deployment := []
  addonStore : List String := []
  etcdClusterStore : List String := []

/-- Oracle for all external collaborators of one reconcile invocation.
Each field mirrors one outbound interface of §6 of the spec; fallible
collaborators return `Except GoErr` or `Option GoErr`.  The three secret
generators are modelled from the spec: `createApiserverSSH` returns the
generated SSH material, which the generator records in the cluster status
(and therefore mutates the cluster), while `createApiserverAuth` and
`createTokens` leave the cluster unchanged. -/
structure Env where
  checkTimeoutErr : Option GoErr := none
  now : Nat := 0
  initcaNew : CertificateRequest → Except GoErr (String × String)
  createTokens : Cluster → Except GoErr Unit
  createApiserverAuth : Cluster → Except GoErr Unit
  createApiserverSSH : Cluster → Except GoErr String
  parseTemplate : String → Except GoErr Unit
  loadServiceFile : Cluster → String → String → Except GoErr Unit
  loadServiceAccountFile : String → String → Except GoErr Unit
  loadClusterRoleBindingFile : String → String → String → Except GoErr String
  loadAwsCloudConfigConfigMap : Cluster → Except GoErr Unit
  loadDeploymentFile : Cluster → MasterVersion → String → String → String → Except GoErr Unit
  loadEtcdClusterFile : MasterVersion → String → String → Except GoErr String
  clientCreateSecret : String → String → Option GoErr
  clientDeleteSecret : String → String → Option GoErr
  clientCreateService : String → String → Option GoErr
  clientCreateServiceAccount : String → String → Option GoErr
  clientCreateClusterRoleBinding : String → Option GoErr
  clientCreateConfigMap : String → String → Option GoErr
  clientCreateDeployment : String → String → Option GoErr
  clientCreateEtcdCluster : String → String → Option GoErr
  clientCreateAddon : String → String → Option GoErr

/-- All non-zero `NodePort`s across all port entries of all services in the
service cache, in cache order (the `usedPorts` slice of `GetFreeNodePort`). -/
def usedNodePorts (cc : ClusterController) : List Int :=
  (cc.serviceStore.map Prod.snd).foldr
    (fun s acc => (s.ports.map (fun p => p.nodePort)).filter (fun p => p ≠ 0) ++ acc) []

/-- The scan loop of `GetFreeNodePort`, with the loop guard `port ≤ maxPort`
expressed as a structural fuel of `(maxPort + 1 - port).toNat` remaining
candidates: return the first candidate not among the used ports. -/
def findFreePortGo (used : List Int) : Nat → Int → Option Int
  | 0, _ => none
  | fuel + 1, port =>
      if port ∈ used then findFreePortGo used fuel (port + 1)
      else some port

/-- The scan loop of `GetFreeNodePort`: starting at `port`, return the first
value not exceeding `maxPort` that is not among the used ports. -/
def findFreePort (used : List Int) (maxPort : Int) (port : Int) : Option Int :=
  findFreePortGo used ((maxPort + 1 - port).toNat) port

/-- `GetFreeNodePort`: the smallest free port in the configured inclusive
range, or the `no free NodePort` error when the range is exhausted. -/
def GetFreeNodePort (cc : ClusterController) : Except GoErr Int :=
  match findFreePort (usedNodePorts cc) cc.maxAPIServerPort cc.minAPIServerPort with
  | some p => Except.ok p
  | none => Except.error (GoErr.noFreeNodePort cc.minAPIServerPort cc.maxAPIServerPort)

lemma findFreePortGo_some_spec (used : List Int) (maxPort : Int) :
    ∀ n port p, (maxPort + 1 - port).toNat = n → findFreePortGo used n port = some p →
      port ≤ p ∧ p ≤ maxPort ∧ p ∉ used ∧ ∀ q, port ≤ q → q < p → q ∈ used := by
  intro n
  induction n with
  | zero => intro port p hn h; exact absurd h (by simp [findFreePortGo])
  | succ n ih =>
    intro port p hn h
    simp only [findFreePortGo] at h
    split at h
    · rename_i hmem
      obtain ⟨h1, h2, h3, h4⟩ := ih (port + 1) p (by omega) h
      refine ⟨by omega, h2, h3, ?_⟩
      intro q hq hqp
      rcases eq_or_lt_of_le hq with heq | hq'
      · exact heq ▸ hmem
      · exact h4 q (by omega) hqp
    · rename_i hmem
      cases h
      exact ⟨le_refl _, by omega, hmem, fun q hq hqp => absurd hqp (by omega)⟩

lemma findFreePortGo_none_spec (used : List Int) (maxPort : Int) :
    ∀ n port, (maxPort + 1 - port).toNat = n → findFreePortGo used n port = none →
      ∀ q, port ≤ q → q ≤ maxPort → q ∈ used := by
  intro n
  induction n with
  | zero => intro port hn h q hq hqmax; exact absurd hqmax (by omega)
  | succ n ih =>
    intro port hn h q hq hqmax
    simp only [findFreePortGo] at h
    split at h
    · rename_i hmem
      rcases eq_or_lt_of_le hq with heq | hq'
      · exact heq ▸ hmem
      · exact ih (port + 1) (by omega) h q (by omega) hqmax
    · exact absurd h (by simp)

lemma findFreePortGo_exhausted (used : List Int) (maxPort : Int) :
    ∀ n port, (maxPort + 1 - port).toNat = n →
      (∀ q, port ≤ q → q ≤ maxPort → q ∈ used) → findFreePortGo used n port = none := by
  intro n
  induction n with
  | zero => intro port hn hall; rfl
  | succ n ih =>
    intro port hn hall
    simp only [findFreePortGo]
    rw [if_pos (hall port (le_refl _) (by omega))]
    exact ih (port + 1) (by omega) (fun q hq hqmax => hall q (by omega) hqmax)

/-- A port value that some service in the cache holds as a non-zero
`NodePort` of one of its port entries. -/
def portTaken (cc : ClusterController) (q : Int) : Prop :=
  ∃ kv ∈ cc.serviceStore, ∃ pe ∈ kv.2.ports, pe.nodePort ≠ 0 ∧ pe.nodePort = q

instance (cc : ClusterController) (q : Int) : Decidable (portTaken cc q) := by
  unfold portTaken; infer_instance

lemma mem_usedNodePorts (cc : ClusterController) (q : Int) :
    q ∈ usedNodePorts cc ↔ portTaken cc q := by
  unfold usedNodePorts portTaken
  induction cc.serviceStore with
  | nil => simp
  | cons kv rest ihr =>
    simp only [List.map_cons, List.foldr_cons, List.mem_append, List.mem_filter,
      List.mem_map, List.mem_cons, ihr]
    constructor
    · rintro (⟨⟨pe, hpe, rfl⟩, hne⟩ | ⟨kv', hkv', h⟩)
      · exact ⟨kv, Or.inl rfl, pe, hpe, by simpa using hne, rfl⟩
      · exact ⟨kv', Or.inr hkv', h⟩
    · rintro ⟨kv', hkv' | hkv', pe, hpe, hne, rfl⟩
      · subst hkv'
        exact Or.inl ⟨⟨pe, hpe, rfl⟩, by simpa using hne⟩
      · exact Or.inr ⟨kv', hkv', pe, hpe, hne, rfl⟩

lemma noFreeNodePort_message (a b : Int) :
    ∃ s, (GoErr.noFreeNodePort a b).message = "no free NodePort" ++ s := by
  refine ⟨" available within the given range " ++ toString a ++ "-" ++ toString b, ?_⟩
  show "no free NodePort available within the given range " ++ toString a ++ "-" ++ toString b
      = _
  have h : ("no free NodePort available within the given range " : String)
      = "no free NodePort" ++ " available within the given range " := by decide
  rw [h]
  simp only [String.append_assoc]

/-- C2: `GetFreeNodePort` returns the smallest port of the configured
inclusive range that no service in the cache holds as a non-zero
`NodePort`; when the whole range is taken it returns (no port and) an
error whose message starts with `no free NodePort`. -/
theorem GetFreeNodePort_spec (cc : ClusterController) :
    (∀ p, GetFreeNodePort cc = Except.ok p →
       cc.minAPIServerPort ≤ p ∧ p ≤ cc.maxAPIServerPort ∧ ¬ portTaken cc p ∧
       ∀ q, cc.minAPIServerPort ≤ q → q < p → portTaken cc q)
  ∧ ((∀ q, cc.minAPIServerPort ≤ q → q ≤ cc.maxAPIServerPort → portTaken cc q) →
       ∃ e, GetFreeNodePort cc = Except.error e ∧
         ∃ s, e.message = "no free NodePort" ++ s) := by
  constructor
  · intro p hp
    unfold GetFreeNodePort at hp
    cases hf : findFreePort (usedNodePorts cc) cc.maxAPIServerPort cc.minAPIServerPort with
    | none => rw [hf] at hp; exact absurd hp (by simp)
    | some p' =>
      rw [hf] at hp
      cases hp
      unfold findFreePort at hf
      obtain ⟨h1, h2, h3, h4⟩ :=
        findFreePortGo_some_spec (usedNodePorts cc) cc.maxAPIServerPort _ _ _ rfl hf
      refine ⟨h1, h2, fun ht => h3 ((mem_usedNodePorts cc _).2 ht), ?_⟩
      intro q hq hqp
      exact (mem_usedNodePorts cc q).1 (h4 q hq hqp)
  · intro hall
    have hnone : findFreePort (usedNodePorts cc) cc.maxAPIServerPort cc.minAPIServerPort
        = none := by
      unfold findFreePort
      apply findFreePortGo_exhausted (usedNodePorts cc) cc.maxAPIServerPort _ _ rfl
      intro q hq hqmax
      exact (mem_usedNodePorts cc q).2 (hall q hq hqmax)
    refine ⟨GoErr.noFreeNodePort cc.minAPIServerPort cc.maxAPIServerPort, ?_, ?_⟩
    · unfold GetFreeNodePort
      rw [hnone]
    · exact noFreeNodePort_message _ _

/-- The certificate request of `pendingCreateRootCA`: CN
`root-ca.<name>.<dc>.<external-url>`, a 2048-bit RSA key request and a CA
expiry of `24*365*10` hours. -/
def rootCAReq (cc : ClusterController) (c : Cluster) : CertificateRequest :=
  { cn := "root-ca." ++ c.metadata.name ++ "." ++ cc.dc ++ "." ++ cc.externalURL
    keyAlgo := "rsa"
    keySize := 2048
    caExpiry := toString (24 * 365 * 10) ++ "h" }

/-- `pendingCreateRootCA`: mint the root CA unless a key is already
present.  The Go multiple assignment writes all three results of
`initca.New` into the status, so on a library error both `Cert` and `Key`
are overwritten with nil. -/
def pendingCreateRootCA (cc : ClusterController) (env : Env) (c : Cluster) : StepRes :=
  if c.status.rootCA.key.isSome then
    { state := c, yield := false, effects := [], err := none }
  else
    match env.initcaNew (rootCAReq cc c) with
    | Except.error e =>
        { state := { c with status := { c.status with rootCA := { key := none, cert := none } } }
          yield := false, effects := [], err := some (GoErr.failedCreateRootCA e) }
    | Except.ok (cert, key) =>
        { state := { c with status := { c.status with rootCA := { key := some key, cert := some cert } } }
          yield := true, effects := [], err := none }

/-- `launchingCheckTokenUsers`: create the token-users secret unless it is
already in the cache; on creation the (unchanged) cluster is returned so
the driver yields. -/
def launchingCheckTokenUsers (cc : ClusterController) (env : Env) (c : Cluster) : StepRes :=
  let ns := cc.nsName c.metadata.name
  let key := ns ++ "/token-users"
  if storeHas cc.secretStore key then
    { state := c, yield := false, effects := [], err := none }
  else
    match env.createTokens c with
    | Except.error e =>
        { state := c, yield := false, effects := []
          err := some (GoErr.failedToGenerate "token users" e) }
    | Except.ok _ =>
        match env.clientCreateSecret ns "token-users" with
        | some e =>
            { state := c, yield := false, effects := []
              err := some (GoErr.failedToCreate "secret for token user" e) }
        | none =>
            { state := c, yield := true
              effects := [Effect.createSecret ns "token-users",
                          Effect.event "launching" ("Created secret \"" ++ key ++ "\"")]
              err := none }

/-- `launchingCheckApiserverPublicService`: when the public `apiserver`
service is not cached, choose a free node port (the Go multiple
assignment stores the port result even when the allocator fails, writing
0 into the address), set the public URL, create the service and yield. -/
def launchingCheckApiserverPublicService (cc : ClusterController) (env : Env) (c : Cluster) :
    StepRes :=
  let ns := cc.nsName c.metadata.name
  let key := ns ++ "/apiserver"
  if storeHasKV cc.serviceStore key then
    { state := c, yield := false, effects := [], err := none }
  else
    match GetFreeNodePort cc with
    | Except.error e =>
        { state := { c with address := { c.address with apiserverExternalPort := 0 } }
          yield := false, effects := [], err := some e }
    | Except.ok port =>
        let c1 := { c with address :=
          { apiserverExternalPort := port
            url := "https://" ++ c.metadata.name ++ "." ++ cc.dc ++ "." ++ cc.externalURL
                     ++ ":" ++ toString port } }
        match env.loadServiceFile c1 "apiserver" cc.masterResourcesPath with
        | Except.error e =>
            { state := c1, yield := false, effects := []
              err := some (GoErr.failedToGenerate ("apiserver service " ++ key) e) }
        | Except.ok _ =>
            match env.clientCreateService ns "apiserver" with
            | some e =>
                { state := c1, yield := false, effects := []
                  err := some (GoErr.failedToCreate ("apiserver service " ++ key) e) }
            | none =>
                { state := c1, yield := true
                  effects := [Effect.createService ns "apiserver",
                              Effect.event "launching"
                                ("Created apiserver service \"" ++ key ++ "\"")]
                  err := none }

/-- `launchingCheckServices`: the auxiliary service set holds the single
entry `apiserver-insecure`; create it when missing.  The function never
returns a cluster. -/
def launchingCheckServices (cc : ClusterController) (env : Env) (c : Cluster) : StepRes :=
  let ns := cc.nsName c.metadata.name
  let s := "apiserver-insecure"
  let key := ns ++ "/" ++ s
  if storeHasKV cc.serviceStore key then
    { state := c, yield := false, effects := [], err := none }
  else
    match env.loadServiceFile c s cc.masterResourcesPath with
    | Except.error e =>
        { state := c, yield := false, effects := []
          err := some (GoErr.failedToGenerate ("service " ++ s) e) }
    | Except.ok _ =>
        match env.clientCreateService ns s with
        | some e =>
            { state := c, yield := false, effects := []
              err := some (GoErr.failedToCreate ("service " ++ s) e) }
        | none =>
            { state := c, yield := false
              effects := [Effect.createService ns s,
                          Effect.event "launching" ("Created service \"" ++ s ++ "\"")]
              err := none }

/-- `launchingCheckServiceAccounts`: the set holds the single entry
`etcd-operator`; create the service account when missing. -/
def launchingCheckServiceAccounts (cc : ClusterController) (env : Env) (c : Cluster) : StepRes :=
  let ns := cc.nsName c.metadata.name
  let s := "etcd-operator"
  let key := ns ++ "/" ++ s
  if storeHas cc.saStore key then
    { state := c, yield := false, effects := [], err := none }
  else
    match env.loadServiceAccountFile s cc.masterResourcesPath with
    | Except.error e =>
        { state := c, yield := false, effects := []
          err := some (GoErr.failedToGenerate ("service account " ++ s) e) }
    | Except.ok _ =>
        match env.clientCreateServiceAccount ns s with
        | some e =>
            { state := c, yield := false, effects := []
              err := some (GoErr.failedToCreate ("service account " ++ s) e) }
        | none =>
            { state := c, yield := false
              effects := [Effect.createServiceAccount ns s,
                          Effect.event "launching" ("Created service account \"" ++ s ++ "\"")]
              err := none }

/-- `launchingCheckClusterRoleBindings`: generate the `etcd-operator`
binding first (its object name is the cache key), then create it when the
cluster-scoped cache lacks it. -/
def launchingCheckClusterRoleBindings (cc : ClusterController) (env : Env) (c : Cluster) :
    StepRes :=
  let ns := cc.nsName c.metadata.name
  let s := "etcd-operator"
  match env.loadClusterRoleBindingFile ns s cc.masterResourcesPath with
  | Except.error e =>
      { state := c, yield := false, effects := []
        err := some (GoErr.failedToGenerate ("cluster role binding " ++ s) e) }
  | Except.ok bindingName =>
      if storeHas cc.clusterRoleBindingStore bindingName then
        { state := c, yield := false, effects := [], err := none }
      else
        match env.clientCreateClusterRoleBinding bindingName with
        | some e =>
            { state := c, yield := false, effects := []
              err := some (GoErr.failedToCreate ("cluster role binding " ++ s) e) }
        | none =>
            { state := c, yield := false
              effects := [Effect.createClusterRoleBinding bindingName,
                          Effect.event "launching" ("Created binding \"" ++ s ++ "\"")]
              err := none }

/-- One iteration of the `pendingCheckSecrets` loop for secret `s` with
generator `gen` (the generator may return a mutated cluster): probe the
cache, delete first when the force-recreate flag applies, parse the
template, generate, create, and yield when the generator mutated the
cluster. -/
def pendingCheckSecret (cc : ClusterController) (env : Env) (c : Cluster) (s : String)
    (gen : Cluster → Except GoErr (Option Cluster)) (recreate : Bool) : StepRes :=
  let ns := cc.nsName c.metadata.name
  let key := ns ++ "/" ++ s
  let ex := storeHas cc.secretStore key
  if ex && !recreate then
    { state := c, yield := false, effects := [], err := none }
  else
    match (if ex then env.clientDeleteSecret ns s else none) with
    | some e => { state := c, yield := false, effects := [], err := some e }
    | none =>
        let delFx := if ex then [Effect.deleteSecret ns s] else []
        match env.parseTemplate (cc.masterResourcesPath ++ "/" ++ s ++ "-secret.yaml") with
        | Except.error e => { state := c, yield := false, effects := delFx, err := some e }
        | Except.ok _ =>
            match gen c with
            | Except.error e =>
                { state := c, yield := false, effects := delFx
                  err := some (GoErr.failedToGenerate s e) }
            | Except.ok changed =>
                let c2 := changed.getD c
                match env.clientCreateSecret ns s with
                | some e =>
                    { state := c2, yield := false, effects := delFx
                      err := some (GoErr.failedToCreate ("secret for " ++ s) e) }
                | none =>
                    { state := c2, yield := changed.isSome
                      effects := delFx ++
                        [Effect.createSecret ns s,
                         Effect.event "pending" ("Created secret \"" ++ key ++ "\"")]
                      err := none }

/-- The `createApiserverAuth` generator.  Modelled from the spec: the
generator produces the `apiserver-auth` secret and does not mutate the
cluster. -/
def apiserverAuthGen (env : Env) (c : Cluster) : Except GoErr (Option Cluster) :=
  match env.createApiserverAuth c with
  | Except.error e => Except.error e
  | Except.ok _ => Except.ok none

/-- The `createApiserverSSH` generator.  Modelled from the spec: the
generator records the generated SSH material in `Status.ApiserverSSH` and
returns the mutated cluster. -/
def apiserverSSHGen (env : Env) (c : Cluster) : Except GoErr (Option Cluster) :=
  match env.createApiserverSSH c with
  | Except.error e => Except.error e
  | Except.ok m => Except.ok (some { c with status := { c.status with apiserverSSH := m } })

/-- `pendingCheckSecrets`: process `apiserver-auth` then `apiserver-ssh`
(the source iterates a two-entry map; the embedding fixes the literal
order).  `apiserver-ssh` carries the force-recreate flag exactly when
`Status.ApiserverSSH` is empty. -/
def pendingCheckSecrets (cc : ClusterController) (env : Env) (c : Cluster) : StepRes :=
  let recreateSSH := c.status.apiserverSSH = ""
  let r1 := pendingCheckSecret cc env c "apiserver-auth" (apiserverAuthGen env) false
  if r1.err.isSome || r1.yield then r1
  else
    let r2 := pendingCheckSecret cc env r1.state "apiserver-ssh" (apiserverSSHGen env)
      (decide recreateSSH)
    { r2 with effects := r1.effects ++ r2.effects }

/-- Whether the cluster spec carries an AWS cloud section
(`c.Spec.Cloud != nil && c.Spec.Cloud.AWS != nil`). -/
def hasAWS (c : Cluster) : Bool :=
  match c.spec.cloud with
  | some cl => cl.aws.isSome
  | none => false

/-- `launchingCheckConfigMaps`: the config-map set holds `aws-cloud-config`
exactly when the spec carries an AWS cloud section, and is empty
otherwise.  The function never returns a cluster. -/
def launchingCheckConfigMaps (cc : ClusterController) (env : Env) (c : Cluster) : StepRes :=
  let ns := cc.nsName c.metadata.name
  if !hasAWS c then
    { state := c, yield := false, effects := [], err := none }
  else
    let s := "aws-cloud-config"
    let key := ns ++ "/" ++ s
    if storeHas cc.cmStore key then
      { state := c, yield := false, effects := [], err := none }
    else
      match env.loadAwsCloudConfigConfigMap c with
      | Except.error e =>
          { state := c, yield := false, effects := []
            err := some (GoErr.failedToGenerate ("cm " ++ s) e) }
      | Except.ok _ =>
          match env.clientCreateConfigMap ns s with
          | some e =>
              { state := c, yield := false, effects := []
                err := some (GoErr.failedToCreate ("cm " ++ s) e) }
          | none =>
              { state := c, yield := false
                effects := [Effect.createConfigMap ns s,
                            Effect.event "launching" ("Created cm \"" ++ key ++ "\"")]
                err := none }

/-- `launchingCheckPvcs`: the persistent-volume-claim set is currently
empty, so the loop body never runs. -/
def launchingCheckPvcs (cc : ClusterController) (env : Env) (c : Cluster) : StepRes :=
  { state := c, yield := false, effects := [], err := none }

/-- The deployment set of a master version, in the literal order of the
source map. -/
def masterVersionDeps (mv : MasterVersion) : List (String × String) :=
  [("etcd-operator", mv.etcdOperatorDeploymentYaml),
   ("apiserver", mv.apiserverDeploymentYaml),
   ("controller-manager", mv.controllerDeploymentYaml),
   ("scheduler", mv.schedulerDeploymentYaml)]

/-- Association-list lookup in the version registry (`cc.versions[id]`). -/
def lookupVersion (versions : List (String × MasterVersion)) (id : String) :
    Option MasterVersion :=
  (versions.find? (fun e => e.1 == id)).map Prod.snd

/-- The loop of `launchingCheckDeployments`: for each role, probe the
namespace index of the deployment cache for a deployment whose `role`
selector label matches, and otherwise load and create it. -/
def launchingCheckDeploymentsLoop (cc : ClusterController) (env : Env) (c : Cluster)
    (mv : MasterVersion) (ns : String) (existingDeps : List Deployment) :
    List (String × String) → List Effect → StepRes
  | [], acc => { state := c, yield := false, effects := acc, err := none }
  | (s, yamlFile) :: rest, acc =>
      let ex := existingDeps.any (fun d => d.role == some s)
      if ex then
        launchingCheckDeploymentsLoop cc env c mv ns existingDeps rest acc
      else
        match env.loadDeploymentFile c mv cc.masterResourcesPath cc.dc yamlFile with
        | Except.error e =>
            { state := c, yield := false, effects := acc
              err := some (GoErr.failedToGenerate ("deployment " ++ s) e) }
        | Except.ok _ =>
            match env.clientCreateDeployment ns s with
            | some e =>
                { state := c, yield := false, effects := acc
                  err := some (GoErr.failedToCreate ("deployment " ++ s) e) }
            | none =>
                launchingCheckDeploymentsLoop cc env c mv ns existingDeps rest
                  (acc ++ [Effect.createDeployment ns s,
                           Effect.event "launching" ("Created dep \"" ++ s ++ "\"")])

/-- The shared failure result of the master-version lookup: substitute the
default id when the spec leaves the version blank, and when the id is not
registered mark the cluster `Failed`, stamp the transition time, record an
event and return the mutated cluster along with an error. -/
def masterVersionFailureRes (env : Env) (c : Cluster) : StepRes :=
  let c' := { c with status := { c.status with
    lastTransitionTime := env.now, phase := ClusterPhase.failed } }
  { state := c', yield := true
    effects := [Effect.event "launching"
      ("Failed to create new cluster \"" ++ c.metadata.name
        ++ "\" due to unknown master version \"" ++ c.spec.masterVersion ++ "\"")]
    err := some (GoErr.unknownMasterVersion c.metadata.name c.spec.masterVersion) }

/-- The master-version substitution shared by the deployment and
etcd-cluster steps: an empty `Spec.MasterVersion` is replaced in place by
the configured default id. -/
def substMasterVersion (cc : ClusterController) (c : Cluster) : Cluster :=
  if c.spec.masterVersion = "" then
    { c with spec := { c.spec with masterVersion := cc.defaultMasterVersion.id } }
  else c

/-- `launchingCheckDeployments`. -/
def launchingCheckDeployments (cc : ClusterController) (env : Env) (c : Cluster) : StepRes :=
  let ns := cc.nsName c.metadata.name
  let c := substMasterVersion cc c
  match lookupVersion cc.versions c.spec.masterVersion with
  | none => masterVersionFailureRes env c
  | some mv =>
      launchingCheckDeploymentsLoop cc env c mv ns
        (cc.depStore.filter (fun d => d.ns == ns)) (masterVersionDeps mv) []

/-- `launchingCheckEtcdCluster`: resolve the master version the same way,
load the etcd-cluster manifest, and create it unless the cache already
holds it — in which case the cluster itself is returned with no error. -/
def launchingCheckEtcdCluster (cc : ClusterController) (env : Env) (c : Cluster) : StepRes :=
  let ns := cc.nsName c.metadata.name
  let c := substMasterVersion cc c
  match lookupVersion cc.versions c.spec.masterVersion with
  | none => masterVersionFailureRes env c
  | some mv =>
      match env.loadEtcdClusterFile mv cc.masterResourcesPath mv.etcdClusterYaml with
      | Except.error e =>
          { state := c, yield := false, effects := []
            err := some (GoErr.failedToLoad "etcd-cluster" e) }
      | Except.ok etcdName =>
          let key := ns ++ "/" ++ etcdName
          if storeHas cc.etcdClusterStore key then
            { state := c, yield := true, effects := [], err := none }
          else
            match env.clientCreateEtcdCluster ns etcdName with
            | some e =>
                { state := c, yield := false, effects := []
                  err := some (GoErr.failedToCreate "ecd-cluster definition (tpr)" e) }
            | none =>
                { state := c, yield := false
                  effects := [Effect.createEtcdCluster ns etcdName,
                              Effect.event "launching" "Created etcd-cluster"]
                  err := none }

/-- The default add-on table, in the literal order of the source map:
safe name paired with add-on name. -/
def defaultPlugins : List (String × String) :=
  [("flannelcni", "flannel-cni"),
   ("heapster", "heapster"),
   ("kubedns", "kubedns"),
   ("kubeproxy", "kube-proxy"),
   ("kubernetesdashboard", "kubernetes-dashboard")]

/-- The loop of `launchingCheckDefaultPlugins`: the existence probe uses
the `NamespaceName`-derived namespace `ns`, while the creation is issued
against the namespace `cluster-<name>`. -/
def launchingCheckDefaultPluginsLoop (cc : ClusterController) (env : Env) (c : Cluster)
    (ns : String) : List (String × String) → List Effect → StepRes
  | [], acc => { state := c, yield := false, effects := acc, err := none }
  | (safeName, name) :: rest, acc =>
      let metaName := "addon-default-" ++ safeName
      if storeHas cc.addonStore (ns ++ "/" ++ metaName) then
        launchingCheckDefaultPluginsLoop cc env c ns rest acc
      else
        match env.clientCreateAddon ("cluster-" ++ c.metadata.name) metaName with
        | some e =>
            { state := c, yield := false, effects := acc
              err := some (GoErr.failedToCreate
                ("default addon third-party-resource " ++ name) e) }
        | none =>
            launchingCheckDefaultPluginsLoop cc env c ns rest
              (acc ++ [Effect.createAddon ("cluster-" ++ c.metadata.name) metaName])

/-- `launchingCheckDefaultPlugins`. -/
def launchingCheckDefaultPlugins (cc : ClusterController) (env : Env) (c : Cluster) : StepRes :=
  launchingCheckDefaultPluginsLoop cc env c (cc.nsName c.metadata.name) defaultPlugins []

/-- Control state of the pipeline driver: either the reconcile already
returned (`done`), or it continues with the current cluster object and the
effects issued so far (`run`). -/
inductive SyncState where
  | done (r : StepRes)
  | run (c : Cluster) (fx : List Effect)
  deriving DecidableEq, Repr

/-- One step under the source checkpoint
`if err != nil || changedC != nil { return changedC, err }`: the driver
returns as soon as the step fails or yields a cluster. -/
def SyncState.stepYield (s : SyncState) (f : Cluster → StepRes) : SyncState :=
  match s with
  | .done r => .done r
  | .run c fx =>
      let r := f c
      if r.err.isSome || r.yield then .done { r with effects := fx ++ r.effects }
      else .run r.state (fx ++ r.effects)

/-- One step under the source checkpoint `if err != nil { return ... }`:
only a failure returns early; a cluster returned without error (only the
etcd-cluster exists-case) is dropped, as in the source. -/
def SyncState.stepErrOnly (s : SyncState) (f : Cluster → StepRes) : SyncState :=
  match s with
  | .done r => .done r
  | .run c fx =>
      let r := f c
      if r.err.isSome then .done { r with effects := fx ++ r.effects }
      else .run r.state (fx ++ r.effects)

/-- The tail of the driver: an early return is passed through; when every
step ran, stamp the transition time, promote the phase to `Launching` and
return the cluster. -/
def SyncState.finish (env : Env) : SyncState → StepRes
  | .done r => r
  | .run c fx =>
      { state := { c with status := { c.status with
          lastTransitionTime := env.now, phase := ClusterPhase.launching } }
        yield := true, effects := fx, err := none }

/-- `syncPendingCluster`, the pipeline driver: check the timeout, then run
the steps in source order with their respective checkpoints, and on full
success promote the phase. -/
def syncPendingCluster (cc : ClusterController) (env : Env) (c : Cluster) : StepRes :=
  match env.checkTimeoutErr with
  | some e => { state := c, yield := false, effects := [], err := some e }
  | none =>
      (((((((((((((SyncState.run c []).stepYield
        (pendingCreateRootCA cc env)).stepYield
        (launchingCheckTokenUsers cc env)).stepYield
        (launchingCheckApiserverPublicService cc env)).stepErrOnly
        (launchingCheckServiceAccounts cc env)).stepErrOnly
        (launchingCheckClusterRoleBindings cc env)).stepYield
        (launchingCheckServices cc env)).stepYield
        (pendingCheckSecrets cc env)).stepErrOnly
        (launchingCheckConfigMaps cc env)).stepErrOnly
        (launchingCheckPvcs cc env)).stepErrOnly
        (launchingCheckDeployments cc env)).stepErrOnly
        (launchingCheckEtcdCluster cc env)).stepErrOnly
        (launchingCheckDefaultPlugins cc env)).finish env

lemma isSome_false_eq_none {α : Type} {o : Option α} (h : o.isSome = false) : o = none := by
  cases o
  · rfl
  · simp at h

lemma pendingCreateRootCA_cases (cc : ClusterController) (env : Env) (c : Cluster) (r : StepRes)
    (hr : pendingCreateRootCA cc env c = r) :
    r.effects = [] ∧
    (r.yield = true → r.err = none ∧ ∃ k ct, r.state =
      { c with status := { c.status with rootCA := { key := some k, cert := some ct } } }) ∧
    (r.yield = false → r.err = none → r.state = c) := by
  simp only [pendingCreateRootCA] at hr
  split at hr
  · subst hr; simp
  · split at hr
    · subst hr; simp
    · subst hr
      exact ⟨rfl, fun _ => ⟨rfl, ⟨_, _, rfl⟩⟩, by simp⟩

lemma launchingCheckTokenUsers_cases (cc : ClusterController) (env : Env) (c : Cluster)
    (r : StepRes) (hr : launchingCheckTokenUsers cc env c = r) :
    r.state = c ∧ (∀ e ∈ r.effects, isLateEffect e = false) ∧ (r.yield = true → r.err = none) := by
  simp only [launchingCheckTokenUsers] at hr
  split at hr
  · subst hr; simp
  · split at hr
    · subst hr; simp
    · split at hr
      · subst hr; simp
      · subst hr; simp [isLateEffect]

lemma launchingCheckApiserverPublicService_cases (cc : ClusterController) (env : Env)
    (c : Cluster) (r : StepRes) (hr : launchingCheckApiserverPublicService cc env c = r) :
    (∀ e ∈ r.effects, isLateEffect e = false) ∧
    (r.yield = true → r.err = none ∧ ∃ a, r.state = { c with address := a }) ∧
    (r.yield = false → r.err = none → r.state = c) := by
  simp only [launchingCheckApiserverPublicService] at hr
  split at hr
  · subst hr; simp
  · split at hr
    · subst hr; simp
    · split at hr
      · subst hr; simp
      · split at hr
        · subst hr; simp
        · subst hr
          exact ⟨by simp [isLateEffect], fun _ => ⟨rfl, ⟨_, rfl⟩⟩, by simp⟩

lemma launchingCheckServiceAccounts_cases (cc : ClusterController) (env : Env) (c : Cluster)
    (r : StepRes) (hr : launchingCheckServiceAccounts cc env c = r) :
    r.state = c ∧ r.yield = false ∧ (∀ e ∈ r.effects, isLateEffect e = false) := by
  simp only [launchingCheckServiceAccounts] at hr
  split at hr
  · subst hr; simp
  · split at hr
    · subst hr; simp
    · split at hr
      · subst hr; simp
      · subst hr; simp [isLateEffect]

lemma launchingCheckClusterRoleBindings_cases (cc : ClusterController) (env : Env) (c : Cluster)
    (r : StepRes) (hr : launchingCheckClusterRoleBindings cc env c = r) :
    r.state = c ∧ r.yield = false ∧ (∀ e ∈ r.effects, isLateEffect e = false) := by
  simp only [launchingCheckClusterRoleBindings] at hr
  split at hr
  · subst hr; simp
  · split at hr
    · subst hr; simp
    · split at hr
      · subst hr; simp
      · subst hr; simp [isLateEffect]

lemma launchingCheckServices_cases (cc : ClusterController) (env : Env) (c : Cluster)
    (r : StepRes) (hr : launchingCheckServices cc env c = r) :
    r.state = c ∧ r.yield = false ∧ (∀ e ∈ r.effects, isLateEffect e = false) := by
  simp only [launchingCheckServices] at hr
  split at hr
  · subst hr; simp
  · split at hr
    · subst hr; simp
    · split at hr
      · subst hr; simp
      · subst hr; simp [isLateEffect]

lemma apiserverAuthGen_shape (env : Env) (c : Cluster) :
    ∀ res, apiserverAuthGen env c = Except.ok res → res = none ∨
      ∃ m, res = some { c with status := { c.status with apiserverSSH := m } } := by
  intro res h
  unfold apiserverAuthGen at h
  split at h
  · exact absurd h (by simp)
  · cases h
    exact Or.inl rfl

lemma apiserverSSHGen_shape (env : Env) (c : Cluster) :
    ∀ res, apiserverSSHGen env c = Except.ok res → res = none ∨
      ∃ m, res = some { c with status := { c.status with apiserverSSH := m } } := by
  intro res h
  unfold apiserverSSHGen at h
  split at h
  · exact absurd h (by simp)
  · cases h
    rename_i m heq
    exact Or.inr ⟨m, rfl⟩

lemma pendingCheckSecret_cases (cc : ClusterController) (env : Env) (c : Cluster) (s : String)
    (gen : Cluster → Except GoErr (Option Cluster)) (recreate : Bool) (r : StepRes)
    (hr : pendingCheckSecret cc env c s gen recreate = r)
    (hgen : ∀ res, gen c = Except.ok res → res = none ∨
      ∃ m, res = some { c with status := { c.status with apiserverSSH := m } }) :
    (∀ e ∈ r.effects, isLateEffect e = false) ∧
    (r.yield = true → r.err = none ∧ ∃ m, r.state =
      { c with status := { c.status with apiserverSSH := m } }) ∧
    (r.yield = false → r.err = none → r.state = c) := by
  simp only [pendingCheckSecret] at hr
  split at hr
  · subst hr; simp
  · split at hr
    · subst hr; simp
    · split at hr
      · subst hr
        refine ⟨?_, by simp, by simp⟩
        split <;> simp [isLateEffect]
      · split at hr
        · subst hr
          refine ⟨?_, by simp, by simp⟩
          split <;> simp [isLateEffect]
        · rename_i changed hgeneq
          split at hr
          · subst hr
            refine ⟨?_, by simp, by simp⟩
            split <;> simp [isLateEffect]
          · subst hr
            refine ⟨?_, ?_, ?_⟩
            · intro e he
              revert he
              split <;> intro he <;>
                simp only [List.cons_append, List.nil_append, List.mem_cons,
                  List.not_mem_nil, or_false] at he
              · rcases he with rfl | rfl | rfl <;> rfl
              · rcases he with rfl | rfl <;> rfl
            · intro hy
              simp only at hy
              rcases hgen changed hgeneq with hnone | ⟨m, hm⟩
              · rw [hnone] at hy; simp at hy
              · subst hm
                exact ⟨rfl, ⟨m, rfl⟩⟩
            · intro hy _
              simp only at hy
              rcases hgen changed hgeneq with hnone | ⟨m, hm⟩
              · rw [hnone]; rfl
              · subst hm; simp at hy

lemma pendingCheckSecrets_cases (cc : ClusterController) (env : Env) (c : Cluster)
    (r : StepRes) (hr : pendingCheckSecrets cc env c = r) :
    (∀ e ∈ r.effects, isLateEffect e = false) ∧
    (r.yield = true → r.err = none ∧ ∃ m, r.state =
      { c with status := { c.status with apiserverSSH := m } }) ∧
    (r.yield = false → r.err = none → r.state = c) := by
  simp only [pendingCheckSecrets] at hr
  split at hr
  · exact pendingCheckSecret_cases cc env c _ _ _ r hr (apiserverAuthGen_shape env c)
  · rename_i hcond
    simp only [Bool.or_eq_true, not_or, Bool.not_eq_true] at hcond
    obtain ⟨hc1, hc2⟩ := hcond
    obtain ⟨hf1, _, hp1⟩ := pendingCheckSecret_cases cc env c "apiserver-auth"
      (apiserverAuthGen env) false _ rfl (apiserverAuthGen_shape env c)
    have hstate1 := hp1 hc2 (isSome_false_eq_none hc1)
    rw [hstate1] at hr
    obtain ⟨hf2, hy2, hp2⟩ := pendingCheckSecret_cases cc env c "apiserver-ssh"
      (apiserverSSHGen env) (decide (c.status.apiserverSSH = "")) _ rfl
      (apiserverSSHGen_shape env c)
    subst hr
    refine ⟨?_, ?_, ?_⟩
    · intro e he
      simp only [List.mem_append] at he
      rcases he with he | he
      · exact hf1 e he
      · exact hf2 e he
    · intro hy
      exact hy2 hy
    · intro hy herr
      exact hp2 hy herr

lemma launchingCheckConfigMaps_cases (cc : ClusterController) (env : Env) (c : Cluster)
    (r : StepRes) (hr : launchingCheckConfigMaps cc env c = r) :
    r.state = c ∧ r.yield = false := by
  simp only [launchingCheckConfigMaps] at hr
  split at hr
  · subst hr; simp
  · split at hr
    · subst hr; simp
    · split at hr
      · subst hr; simp
      · split at hr
        · subst hr; simp
        · subst hr; simp

lemma launchingCheckPvcs_cases (cc : ClusterController) (env : Env) (c : Cluster) :
    launchingCheckPvcs cc env c = { state := c, yield := false, effects := [], err := none } :=
  rfl

lemma launchingCheckDeploymentsLoop_yield (cc : ClusterController) (env : Env) (c : Cluster)
    (mv : MasterVersion) (ns : String) (ed : List Deployment) :
    ∀ L acc, (launchingCheckDeploymentsLoop cc env c mv ns ed L acc).yield = false := by
  intro L
  induction L with
  | nil => intro acc; rfl
  | cons p rest ih =>
    intro acc
    obtain ⟨s, yamlFile⟩ := p
    simp only [launchingCheckDeploymentsLoop]
    split
    · exact ih _
    · split
      · rfl
      · split
        · rfl
        · exact ih _

lemma masterVersionFailureRes_shape (env : Env) (c : Cluster) :
    (masterVersionFailureRes env c).state.status.phase = ClusterPhase.failed ∧
    (masterVersionFailureRes env c).state.status.lastTransitionTime = env.now ∧
    ∃ n v, (masterVersionFailureRes env c).err = some (GoErr.unknownMasterVersion n v) :=
  ⟨rfl, rfl, c.metadata.name, c.spec.masterVersion, rfl⟩

lemma launchingCheckDeployments_cases (cc : ClusterController) (env : Env) (c : Cluster)
    (r : StepRes) (hr : launchingCheckDeployments cc env c = r) :
    r.yield = true →
      r.state.status.phase = ClusterPhase.failed ∧
      r.state.status.lastTransitionTime = env.now ∧
      ∃ n v, r.err = some (GoErr.unknownMasterVersion n v) := by
  simp only [launchingCheckDeployments] at hr
  split at hr
  · subst hr
    intro _
    exact masterVersionFailureRes_shape env _
  · intro hy
    rw [← hr, launchingCheckDeploymentsLoop_yield] at hy
    cases hy

lemma launchingCheckEtcdCluster_cases (cc : ClusterController) (env : Env) (c : Cluster)
    (r : StepRes) (hr : launchingCheckEtcdCluster cc env c = r) :
    r.yield = true → r.err.isSome = true →
      r.state.status.phase = ClusterPhase.failed ∧
      r.state.status.lastTransitionTime = env.now ∧
      ∃ n v, r.err = some (GoErr.unknownMasterVersion n v) := by
  simp only [launchingCheckEtcdCluster] at hr
  split at hr
  · subst hr
    intro _ _
    exact masterVersionFailureRes_shape env _
  · split at hr
    · subst hr; intro hy; cases hy
    · split at hr
      · subst hr; intro _ he; cases he
      · split at hr
        · subst hr; intro hy; cases hy
        · subst hr; intro hy; cases hy

/-- The success exit of the reconcile: no error, phase promoted to
`Launching`, transition time stamped with the current tick. -/
def launchShape (env : Env) (r : StepRes) : Prop :=
  r.err = none ∧ r.state.status.phase = ClusterPhase.launching ∧
  r.state.status.lastTransitionTime = env.now

/-- The unknown-master-version exit of the reconcile: the returned cluster
is marked `Failed` with a stamped transition time, alongside the
`unknown master version` error. -/
def failShape (env : Env) (r : StepRes) : Prop :=
  r.state.status.phase = ClusterPhase.failed ∧
  r.state.status.lastTransitionTime = env.now ∧
  ∃ n v, r.err = some (GoErr.unknownMasterVersion n v)

/-- The mid-pipeline yield of the reconcile: no error, no effect of the
steps after the secrets step, every field of the cluster record outside
the three mutation regions (root CA, address, apiserver SSH material)
unchanged, and at least two of the three regions unchanged — i.e. at most
one region mutated. -/
def pendingYieldShape (c : Cluster) (r : StepRes) : Prop :=
  r.err = none ∧ (∀ e ∈ r.effects, isLateEffect e = false) ∧
  r.state.metadata = c.metadata ∧ r.state.spec = c.spec ∧
  r.state.status.phase = c.status.phase ∧
  r.state.status.lastTransitionTime = c.status.lastTransitionTime ∧
  ((r.state.address = c.address ∧ r.state.status.apiserverSSH = c.status.apiserverSSH) ∨
   (r.state.status.rootCA = c.status.rootCA ∧
     r.state.status.apiserverSSH = c.status.apiserverSSH) ∨
   (r.state.status.rootCA = c.status.rootCA ∧ r.state.address = c.address))


lemma launchingCheckDefaultPluginsLoop_yield (cc : ClusterController) (env : Env) (c : Cluster)
    (ns : String) : ∀ L acc, (launchingCheckDefaultPluginsLoop cc env c ns L acc).yield = false := by
  intro L
  induction L with
  | nil => intro acc; rfl
  | cons p rest ih =>
    intro acc
    obtain ⟨safeName, name⟩ := p
    simp only [launchingCheckDefaultPluginsLoop]
    split
    · exact ih _
    · split
      · rfl
      · exact ih _

lemma launchingCheckDefaultPlugins_yield (cc : ClusterController) (env : Env) (c : Cluster) :
    (launchingCheckDefaultPlugins cc env c).yield = false :=
  launchingCheckDefaultPluginsLoop_yield cc env c _ _ _

lemma SyncState.stepYield_done (r : StepRes) (f : Cluster → StepRes) :
    (SyncState.done r).stepYield f = SyncState.done r := rfl

lemma SyncState.stepErrOnly_done (r : StepRes) (f : Cluster → StepRes) :
    (SyncState.done r).stepErrOnly f = SyncState.done r := rfl

lemma SyncState.stepYield_run_fail (c : Cluster) (fx : List Effect) (f : Cluster → StepRes)
    (h : ((f c).err.isSome || (f c).yield) = true) :
    (SyncState.run c fx).stepYield f =
      SyncState.done { f c with effects := fx ++ (f c).effects } := by
  simp [SyncState.stepYield, h]

lemma SyncState.stepYield_run_pass (c : Cluster) (fx : List Effect) (f : Cluster → StepRes)
    (herr : (f c).err = none) (hy : (f c).yield = false) :
    (SyncState.run c fx).stepYield f = SyncState.run (f c).state (fx ++ (f c).effects) := by
  simp [SyncState.stepYield, herr, hy]

lemma SyncState.stepErrOnly_run_fail (c : Cluster) (fx : List Effect) (f : Cluster → StepRes)
    (h : (f c).err.isSome = true) :
    (SyncState.run c fx).stepErrOnly f =
      SyncState.done { f c with effects := fx ++ (f c).effects } := by
  simp [SyncState.stepErrOnly, h]

lemma SyncState.stepErrOnly_run_pass (c : Cluster) (fx : List Effect) (f : Cluster → StepRes)
    (herr : (f c).err = none) :
    (SyncState.run c fx).stepErrOnly f = SyncState.run (f c).state (fx ++ (f c).effects) := by
  simp [SyncState.stepErrOnly, herr]

lemma sync_yield_cases (cc : ClusterController) (env : Env) (c : Cluster) (r : StepRes)
    (hr : syncPendingCluster cc env c = r) (hy : r.yield = true) :
    launchShape env r ∨ failShape env r ∨ pendingYieldShape c r := by
  unfold syncPendingCluster at hr
  split at hr
  · subst hr; cases hy
  · -- step 1: root CA
    obtain ⟨hf1, hy1s, hp1⟩ := pendingCreateRootCA_cases cc env c _ rfl
    by_cases hc1 : ((pendingCreateRootCA cc env c).err.isSome
        || (pendingCreateRootCA cc env c).yield) = true
    · rw [SyncState.stepYield_run_fail _ _ _ hc1] at hr
      simp only [SyncState.stepYield_done, SyncState.stepErrOnly_done, SyncState.finish] at hr
      subst hr
      have hy1 : (pendingCreateRootCA cc env c).yield = true := hy
      obtain ⟨herr, k, ct, hst⟩ := hy1s hy1
      refine Or.inr (Or.inr ?_)
      unfold pendingYieldShape
      dsimp only
      rw [hst, hf1, herr]
      simp
    · simp only [Bool.or_eq_true, not_or, Bool.not_eq_true] at hc1
      rw [SyncState.stepYield_run_pass _ _ _ (isSome_false_eq_none hc1.1) hc1.2,
        hp1 hc1.2 (isSome_false_eq_none hc1.1), hf1] at hr
      -- step 2: token users
      obtain ⟨hs2, hf2, he2⟩ := launchingCheckTokenUsers_cases cc env c _ rfl
      by_cases hc2 : ((launchingCheckTokenUsers cc env c).err.isSome
          || (launchingCheckTokenUsers cc env c).yield) = true
      · rw [SyncState.stepYield_run_fail _ _ _ hc2] at hr
        simp only [SyncState.stepYield_done, SyncState.stepErrOnly_done, SyncState.finish] at hr
        subst hr
        have hy2 : (launchingCheckTokenUsers cc env c).yield = true := hy
        refine Or.inr (Or.inr ?_)
        unfold pendingYieldShape
        dsimp only
        rw [hs2, he2 hy2]
        refine ⟨rfl, ?_, rfl, rfl, rfl, rfl, Or.inl ⟨rfl, rfl⟩⟩
        intro e he
        simp only [List.append_nil, List.nil_append] at he
        exact hf2 e he
      · simp only [Bool.or_eq_true, not_or, Bool.not_eq_true] at hc2
        rw [SyncState.stepYield_run_pass _ _ _ (isSome_false_eq_none hc2.1) hc2.2, hs2] at hr
        -- step 3: public apiserver service
        obtain ⟨hf3, hy3s, hp3⟩ := launchingCheckApiserverPublicService_cases cc env c _ rfl
        by_cases hc3 : ((launchingCheckApiserverPublicService cc env c).err.isSome
            || (launchingCheckApiserverPublicService cc env c).yield) = true
        · rw [SyncState.stepYield_run_fail _ _ _ hc3] at hr
          simp only [SyncState.stepYield_done, SyncState.stepErrOnly_done,
            SyncState.finish] at hr
          subst hr
          have hy3 : (launchingCheckApiserverPublicService cc env c).yield = true := hy
          obtain ⟨herr, a, hst⟩ := hy3s hy3
          refine Or.inr (Or.inr ?_)
          unfold pendingYieldShape
          dsimp only
          rw [hst, herr]
          refine ⟨rfl, ?_, rfl, rfl, rfl, rfl, Or.inr (Or.inl ⟨rfl, rfl⟩)⟩
          intro e he
          simp only [List.append_nil, List.nil_append, List.mem_append] at he
          rcases he with he | he
          · exact hf2 e he
          · exact hf3 e he
        · simp only [Bool.or_eq_true, not_or, Bool.not_eq_true] at hc3
          rw [SyncState.stepYield_run_pass _ _ _ (isSome_false_eq_none hc3.1) hc3.2,
            hp3 hc3.2 (isSome_false_eq_none hc3.1)] at hr
          -- step 4: service accounts
          obtain ⟨hs4, hy4, hf4⟩ := launchingCheckServiceAccounts_cases cc env c _ rfl
          by_cases hc4 : (launchingCheckServiceAccounts cc env c).err.isSome = true
          · rw [SyncState.stepErrOnly_run_fail _ _ _ hc4] at hr
            simp only [SyncState.stepYield_done, SyncState.stepErrOnly_done,
              SyncState.finish] at hr
            subst hr
            have : (launchingCheckServiceAccounts cc env c).yield = true := hy
            rw [hy4] at this
            cases this
          · simp only [Bool.not_eq_true] at hc4
            rw [SyncState.stepErrOnly_run_pass _ _ _ (isSome_false_eq_none hc4), hs4] at hr
            -- step 5: cluster role bindings
            obtain ⟨hs5, hy5, hf5⟩ := launchingCheckClusterRoleBindings_cases cc env c _ rfl
            by_cases hc5 : (launchingCheckClusterRoleBindings cc env c).err.isSome = true
            · rw [SyncState.stepErrOnly_run_fail _ _ _ hc5] at hr
              simp only [SyncState.stepYield_done, SyncState.stepErrOnly_done,
                SyncState.finish] at hr
              subst hr
              have : (launchingCheckClusterRoleBindings cc env c).yield = true := hy
              rw [hy5] at this
              cases this
            · simp only [Bool.not_eq_true] at hc5
              rw [SyncState.stepErrOnly_run_pass _ _ _ (isSome_false_eq_none hc5), hs5] at hr
              -- step 6: auxiliary services
              obtain ⟨hs6, hy6, hf6⟩ := launchingCheckServices_cases cc env c _ rfl
              by_cases hc6 : ((launchingCheckServices cc env c).err.isSome
                  || (launchingCheckServices cc env c).yield) = true
              · rw [SyncState.stepYield_run_fail _ _ _ hc6] at hr
                simp only [SyncState.stepYield_done, SyncState.stepErrOnly_done,
                  SyncState.finish] at hr
                subst hr
                have : (launchingCheckServices cc env c).yield = true := hy
                rw [hy6] at this
                cases this
              · simp only [Bool.or_eq_true, not_or, Bool.not_eq_true] at hc6
                rw [SyncState.stepYield_run_pass _ _ _ (isSome_false_eq_none hc6.1) hc6.2,
                  hs6] at hr
                -- step 7: secrets
                obtain ⟨hf7, hy7s, hp7⟩ := pendingCheckSecrets_cases cc env c _ rfl
                by_cases hc7 : ((pendingCheckSecrets cc env c).err.isSome
                    || (pendingCheckSecrets cc env c).yield) = true
                · rw [SyncState.stepYield_run_fail _ _ _ hc7] at hr
                  simp only [SyncState.stepYield_done, SyncState.stepErrOnly_done,
                    SyncState.finish] at hr
                  subst hr
                  have hy7 : (pendingCheckSecrets cc env c).yield = true := hy
                  obtain ⟨herr, m, hst⟩ := hy7s hy7
                  refine Or.inr (Or.inr ?_)
                  unfold pendingYieldShape
                  dsimp only
                  rw [hst, herr]
                  refine ⟨rfl, ?_, rfl, rfl, rfl, rfl, Or.inr (Or.inr ⟨rfl, rfl⟩)⟩
                  intro e he
                  simp only [List.append_nil, List.nil_append, List.mem_append] at he
                  rcases he with ((((he | he) | he) | he) | he) | he
                  · exact hf2 e he
                  · exact hf3 e he
                  · exact hf4 e he
                  · exact hf5 e he
                  · exact hf6 e he
                  · exact hf7 e he
                · simp only [Bool.or_eq_true, not_or, Bool.not_eq_true] at hc7
                  rw [SyncState.stepYield_run_pass _ _ _ (isSome_false_eq_none hc7.1) hc7.2,
                    hp7 hc7.2 (isSome_false_eq_none hc7.1)] at hr
                  -- step 8: config maps
                  obtain ⟨hs8, hy8⟩ := launchingCheckConfigMaps_cases cc env c _ rfl
                  by_cases hc8 : (launchingCheckConfigMaps cc env c).err.isSome = true
                  · rw [SyncState.stepErrOnly_run_fail _ _ _ hc8] at hr
                    simp only [SyncState.stepYield_done, SyncState.stepErrOnly_done,
                      SyncState.finish] at hr
                    subst hr
                    have : (launchingCheckConfigMaps cc env c).yield = true := hy
                    rw [hy8] at this
                    cases this
                  · simp only [Bool.not_eq_true] at hc8
                    rw [SyncState.stepErrOnly_run_pass _ _ _ (isSome_false_eq_none hc8),
                      hs8] at hr
                    -- step 9: pvcs (empty set)
                    rw [SyncState.stepErrOnly_run_pass _ _ _
                      (by rw [launchingCheckPvcs_cases]),
                      launchingCheckPvcs_cases] at hr
                    -- step 10: deployments
                    by_cases hc10 : (launchingCheckDeployments cc env c).err.isSome = true
                    · rw [SyncState.stepErrOnly_run_fail _ _ _ hc10] at hr
                      simp only [SyncState.stepYield_done, SyncState.stepErrOnly_done,
                        SyncState.finish] at hr
                      subst hr
                      have hy10 : (launchingCheckDeployments cc env c).yield = true := hy
                      obtain ⟨hph, hltt, n, v, herr⟩ :=
                        launchingCheckDeployments_cases cc env c _ rfl hy10
                      exact Or.inr (Or.inl ⟨hph, hltt, n, v, herr⟩)
                    · simp only [Bool.not_eq_true] at hc10
                      rw [SyncState.stepErrOnly_run_pass _ _ _ (isSome_false_eq_none hc10)] at hr
                      -- step 11: etcd cluster
                      by_cases hc11 : (launchingCheckEtcdCluster cc env
                          (launchingCheckDeployments cc env c).state).err.isSome = true
                      · rw [SyncState.stepErrOnly_run_fail _ _ _ hc11] at hr
                        simp only [SyncState.stepYield_done, SyncState.stepErrOnly_done,
                          SyncState.finish] at hr
                        subst hr
                        have hy11 : (launchingCheckEtcdCluster cc env
                            (launchingCheckDeployments cc env c).state).yield = true := hy
                        obtain ⟨hph, hltt, n, v, herr⟩ :=
                          launchingCheckEtcdCluster_cases cc env _ _ rfl hy11 hc11
                        exact Or.inr (Or.inl ⟨hph, hltt, n, v, herr⟩)
                      · simp only [Bool.not_eq_true] at hc11
                        rw [SyncState.stepErrOnly_run_pass _ _ _
                          (isSome_false_eq_none hc11)] at hr
                        -- step 12: default plugins
                        by_cases hc12 : (launchingCheckDefaultPlugins cc env
                            (launchingCheckEtcdCluster cc env
                              (launchingCheckDeployments cc env c).state).state).err.isSome
                            = true
                        · rw [SyncState.stepErrOnly_run_fail _ _ _ hc12] at hr
                          simp only [SyncState.stepYield_done, SyncState.stepErrOnly_done,
                            SyncState.finish] at hr
                          subst hr
                          have : (launchingCheckDefaultPlugins cc env
                              (launchingCheckEtcdCluster cc env
                                (launchingCheckDeployments cc env c).state).state).yield
                              = true := hy
                          rw [launchingCheckDefaultPlugins_yield] at this
                          cases this
                        · simp only [Bool.not_eq_true] at hc12
                          rw [SyncState.stepErrOnly_run_pass _ _ _
                            (isSome_false_eq_none hc12)] at hr
                          simp only [SyncState.finish] at hr
                          subst hr
                          exact Or.inl ⟨rfl, rfl, rfl⟩

/-- C1: whenever `syncPendingCluster` returns a non-nil cluster whose phase
is still `Pending`, the cluster record agrees with the input everywhere
outside the three mutation regions (root CA, address = public URL + port,
apiserver SSH material), at most one of those regions differs (the
token-users creation mutates none of them), and no effect of the steps
after the secrets step was issued in that call. -/
theorem syncPendingCluster_yieldOnMutation (cc : ClusterController) (env : Env) (c : Cluster)
    (r : StepRes) (hr : syncPendingCluster cc env c = r)
    (hpc : c.status.phase = ClusterPhase.pending) (hy : r.yield = true)
    (hp : r.state.status.phase = ClusterPhase.pending) :
    pendingYieldShape c r := by
  rcases sync_yield_cases cc env c r hr hy with h | h | h
  · obtain ⟨_, h2, _⟩ := h
    rw [hp] at h2
    cases h2
  · obtain ⟨h1, _, _⟩ := h
    rw [hp] at h1
    cases h1
  · exact h

/-- C9: for a pending input cluster, a non-nil result of
`syncPendingCluster` has phase `Pending`, `Launching` or `Failed` (never an
earlier phase); `Launching` occurs only error-free with
`LastTransitionTime` stamped to now, and `Failed` only with the
unknown-master-version error. -/
theorem syncPendingCluster_phaseMonotone (cc : ClusterController) (env : Env) (c : Cluster)
    (r : StepRes) (hr : syncPendingCluster cc env c = r)
    (hpc : c.status.phase = ClusterPhase.pending) (hy : r.yield = true) :
    (r.state.status.phase = ClusterPhase.pending ∨
     r.state.status.phase = ClusterPhase.launching ∨
     r.state.status.phase = ClusterPhase.failed) ∧
    (r.state.status.phase = ClusterPhase.launching →
       r.err = none ∧ r.state.status.lastTransitionTime = env.now) ∧
    (r.state.status.phase = ClusterPhase.failed →
       ∃ n v, r.err = some (GoErr.unknownMasterVersion n v)) := by
  rcases sync_yield_cases cc env c r hr hy with h | h | h
  · obtain ⟨herr, hph, hltt⟩ := h
    refine ⟨Or.inr (Or.inl hph), fun _ => ⟨herr, hltt⟩, fun hf => ?_⟩
    rw [hph] at hf
    cases hf
  · obtain ⟨hph, hltt, hex⟩ := h
    refine ⟨Or.inr (Or.inr hph), fun hl => ?_, fun _ => hex⟩
    rw [hph] at hl
    cases hl
  · obtain ⟨herr, _, _, _, hph, _, _⟩ := h
    rw [hpc] at hph
    refine ⟨Or.inl hph, fun hl => ?_, fun hf => ?_⟩
    · rw [hph] at hl
      cases hl
    · rw [hph] at hf
      cases hf

/-- C3: in both the deployment step and the etcd-cluster step, an empty
`Spec.MasterVersion` is replaced by the configured default id, and an
unregistered id marks the cluster `Failed`, stamps `LastTransitionTime`,
records an event and returns the mutated cluster with a non-nil error. -/
theorem masterVersionFailure_spec (cc : ClusterController) (env : Env) (c : Cluster)
    (hv : lookupVersion cc.versions (substMasterVersion cc c).spec.masterVersion = none) :
    launchingCheckDeployments cc env c = masterVersionFailureRes env (substMasterVersion cc c) ∧
    launchingCheckEtcdCluster cc env c = masterVersionFailureRes env (substMasterVersion cc c) ∧
    (masterVersionFailureRes env (substMasterVersion cc c)).state.status.phase
      = ClusterPhase.failed ∧
    (masterVersionFailureRes env (substMasterVersion cc c)).state.status.lastTransitionTime
      = env.now ∧
    (masterVersionFailureRes env (substMasterVersion cc c)).yield = true ∧
    (masterVersionFailureRes env (substMasterVersion cc c)).err =
      some (GoErr.unknownMasterVersion (substMasterVersion cc c).metadata.name
        (substMasterVersion cc c).spec.masterVersion) ∧
    (∃ msg, Effect.event "launching" msg
      ∈ (masterVersionFailureRes env (substMasterVersion cc c)).effects) ∧
    (c.spec.masterVersion = "" →
      (substMasterVersion cc c).spec.masterVersion = cc.defaultMasterVersion.id) := by
  refine ⟨?_, ?_, rfl, rfl, rfl, rfl, ?_, ?_⟩
  · simp [launchingCheckDeployments, hv]
  · simp [launchingCheckEtcdCluster, hv]
  · exact ⟨"Failed to create new cluster \"" ++ (substMasterVersion cc c).metadata.name
      ++ "\" due to unknown master version \""
      ++ (substMasterVersion cc c).spec.masterVersion ++ "\"",
      by simp [masterVersionFailureRes]⟩
  · intro h
    simp [substMasterVersion, h]

/-- C4: `pendingCreateRootCA` is idempotent — with a root-CA key already
present it returns `(nil, nil)` and changes nothing — and otherwise it
requests a 2048-bit RSA key, the CN `root-ca.<name>.<dc>.<external-url>`
and a CA expiry of `24*365*10` hours, stores the certificate and key in
`Status.RootCA` and returns the mutated cluster. -/
theorem pendingCreateRootCA_spec (cc : ClusterController) (env : Env) (c : Cluster) :
    (c.status.rootCA.key.isSome = true →
      pendingCreateRootCA cc env c =
        { state := c, yield := false, effects := [], err := none }) ∧
    (c.status.rootCA.key = none →
      (rootCAReq cc c).keyAlgo = "rsa" ∧ (rootCAReq cc c).keySize = 2048 ∧
      (rootCAReq cc c).cn =
        "root-ca." ++ c.metadata.name ++ "." ++ cc.dc ++ "." ++ cc.externalURL ∧
      (rootCAReq cc c).caExpiry = toString (24 * 365 * 10) ++ "h" ∧
      ∀ cert key, env.initcaNew (rootCAReq cc c) = Except.ok (cert, key) →
        pendingCreateRootCA cc env c =
          { state := { c with status := { c.status with
              rootCA := { key := some key, cert := some cert } } }
            yield := true, effects := [], err := none }) := by
  constructor
  · intro h
    simp [pendingCreateRootCA, h]
  · intro h
    refine ⟨rfl, rfl, rfl, rfl, ?_⟩
    intro cert key hca
    simp [pendingCreateRootCA, h, hca]

/-- C8: whenever the public-service step yields a cluster, its URL is
exactly `https://<name>.<dc>.<external-url>:<port>` with `<port>` the value
simultaneously stored in `Address.ApiserverExternalPort`. -/
theorem apiserverPublicService_url_spec (cc : ClusterController) (env : Env) (c : Cluster)
    (hy : (launchingCheckApiserverPublicService cc env c).yield = true) :
    (launchingCheckApiserverPublicService cc env c).state.address.url =
      "https://" ++ c.metadata.name ++ "." ++ cc.dc ++ "." ++ cc.externalURL ++ ":"
        ++ toString
          (launchingCheckApiserverPublicService cc env c).state.address.apiserverExternalPort
    := by
  revert hy
  simp only [launchingCheckApiserverPublicService]
  split
  · intro hy; cases hy
  · split
    · intro hy; cases hy
    · split
      · intro hy; cases hy
      · split
        · intro hy; cases hy
        · intro _; rfl

/-- A master version used by the concrete witnesses. -/
def mvW : MasterVersion := { id := "v1" }

/-- An all-succeeding collaborator oracle used by the concrete witnesses. -/
def envOkW : Env :=
  { initcaNew := fun _ => Except.ok ("certPEM", "keyPEM")
    createTokens := fun _ => Except.ok ()
    createApiserverAuth := fun _ => Except.ok ()
    createApiserverSSH := fun _ => Except.ok "ssh-rsa AAAA"
    parseTemplate := fun _ => Except.ok ()
    loadServiceFile := fun _ _ _ => Except.ok ()
    loadServiceAccountFile := fun _ _ => Except.ok ()
    loadClusterRoleBindingFile := fun _ app _ => Except.ok (app ++ "-binding")
    loadAwsCloudConfigConfigMap := fun _ => Except.ok ()
    loadDeploymentFile := fun _ _ _ _ _ => Except.ok ()
    loadEtcdClusterFile := fun _ _ _ => Except.ok "etcd-cluster"
    clientCreateSecret := fun _ _ => none
    clientDeleteSecret := fun _ _ => none
    clientCreateService := fun _ _ => none
    clientCreateServiceAccount := fun _ _ => none
    clientCreateClusterRoleBinding := fun _ => none
    clientCreateConfigMap := fun _ _ => none
    clientCreateDeployment := fun _ _ => none
    clientCreateEtcdCluster := fun _ _ => none
    clientCreateAddon := fun _ _ => none
    now := 42 }

/-- A controller configuration used by the concrete witnesses. -/
def ccW : ClusterController :=
  { dc := "dc1"
    externalURL := "example.com"
    minAPIServerPort := 30000
    maxAPIServerPort := 30003
    defaultMasterVersion := mvW
    versions := [("v1", mvW)]
    nsName := fun n => "cluster-" ++ n }

/-- A freshly declared pending cluster used by the concrete witnesses. -/
def cW : Cluster := { metadata := { name := "c1" } }

theorem syncPendingCluster_yieldOnMutation_witness :
    pendingYieldShape cW (syncPendingCluster ccW envOkW cW) :=
  syncPendingCluster_yieldOnMutation ccW envOkW cW _ rfl (by decide) (by decide) (by decide)

theorem syncPendingCluster_phaseMonotone_witness :
    ((syncPendingCluster ccW envOkW cW).state.status.phase = ClusterPhase.pending ∨
     (syncPendingCluster ccW envOkW cW).state.status.phase = ClusterPhase.launching ∨
     (syncPendingCluster ccW envOkW cW).state.status.phase = ClusterPhase.failed) ∧
    ((syncPendingCluster ccW envOkW cW).state.status.phase = ClusterPhase.launching →
       (syncPendingCluster ccW envOkW cW).err = none ∧
       (syncPendingCluster ccW envOkW cW).state.status.lastTransitionTime = envOkW.now) ∧
    ((syncPendingCluster ccW envOkW cW).state.status.phase = ClusterPhase.failed →
       ∃ n v, (syncPendingCluster ccW envOkW cW).err
         = some (GoErr.unknownMasterVersion n v)) :=
  syncPendingCluster_phaseMonotone ccW envOkW cW _ rfl (by decide) (by decide)

/-- A controller whose two-port range is fully occupied apart from port 2. -/
def ccPortW : ClusterController :=
  { nsName := fun n => "cluster-" ++ n
    minAPIServerPort := 1
    maxAPIServerPort := 2
    serviceStore := [("ns1/a", { ports := [{ nodePort := 1 }] })] }

theorem GetFreeNodePort_spec_witness :
    GetFreeNodePort ccPortW = Except.ok 2 ∧
    (ccPortW.minAPIServerPort ≤ 2 ∧ 2 ≤ ccPortW.maxAPIServerPort ∧
     ¬ portTaken ccPortW 2 ∧
     ∀ q, ccPortW.minAPIServerPort ≤ q → q < 2 → portTaken ccPortW q) :=
  ⟨by decide, (GetFreeNodePort_spec ccPortW).1 2 (by decide)⟩

/-- A pending cluster declaring an unregistered master version. -/
def cBadVer : Cluster := { metadata := { name := "c1" }, spec := { masterVersion := "zzz" } }

theorem masterVersionFailure_spec_witness :
    launchingCheckDeployments ccW envOkW cBadVer
      = masterVersionFailureRes envOkW (substMasterVersion ccW cBadVer) ∧
    launchingCheckEtcdCluster ccW envOkW cBadVer
      = masterVersionFailureRes envOkW (substMasterVersion ccW cBadVer) ∧
    (masterVersionFailureRes envOkW (substMasterVersion ccW cBadVer)).state.status.phase
      = ClusterPhase.failed :=
  ⟨(masterVersionFailure_spec ccW envOkW cBadVer (by decide)).1,
   (masterVersionFailure_spec ccW envOkW cBadVer (by decide)).2.1,
   (masterVersionFailure_spec ccW envOkW cBadVer (by decide)).2.2.1⟩

theorem pendingCreateRootCA_spec_witness :
    pendingCreateRootCA ccW envOkW cW =
      { state := { cW with status := { cW.status with
          rootCA := { key := some "keyPEM", cert := some "certPEM" } } }
        yield := true, effects := [], err := none } :=
  ((pendingCreateRootCA_spec ccW envOkW cW).2 rfl).2.2.2.2 "certPEM" "keyPEM" rfl

theorem apiserverPublicService_url_spec_witness :
    (launchingCheckApiserverPublicService ccW envOkW cW).state.address.url =
      "https://" ++ cW.metadata.name ++ "." ++ ccW.dc ++ "." ++ ccW.externalURL ++ ":"
        ++ toString
          (launchingCheckApiserverPublicService ccW envOkW cW).state.address.apiserverExternalPort
    :=
  apiserverPublicService_url_spec ccW envOkW cW (by decide)

/-- C7: the config-map step attempts the `aws-cloud-config` config map
exactly when the cloud spec is present with an AWS sub-record; for every
other cluster the step is a no-op that creates no config map at all. -/
theorem launchingCheckConfigMaps_awsOnly (cc : ClusterController) (env : Env) (c : Cluster) :
    (hasAWS c = true ↔ ∃ cl, c.spec.cloud = some cl ∧ cl.aws.isSome = true) ∧
    (hasAWS c = false → launchingCheckConfigMaps cc env c =
      { state := c, yield := false, effects := [], err := none }) ∧
    (∀ nsx m, Effect.createConfigMap nsx m ∈ (launchingCheckConfigMaps cc env c).effects →
      m = "aws-cloud-config" ∧ hasAWS c = true) ∧
    (hasAWS c = true →
      storeHas cc.cmStore (cc.nsName c.metadata.name ++ "/aws-cloud-config") = false →
      env.loadAwsCloudConfigConfigMap c = Except.ok () →
      env.clientCreateConfigMap (cc.nsName c.metadata.name) "aws-cloud-config" = none →
      Effect.createConfigMap (cc.nsName c.metadata.name) "aws-cloud-config"
        ∈ (launchingCheckConfigMaps cc env c).effects) := by
  refine ⟨?_, ?_, ?_, ?_⟩
  · unfold hasAWS
    cases hc : c.spec.cloud with
    | none => simp
    | some cl => simp
  · intro h
    simp [launchingCheckConfigMaps, h]
  · intro nsx m hm
    revert hm
    simp only [launchingCheckConfigMaps]
    split
    · rename_i hAws
      simp only [Bool.not_eq_true'] at hAws
      intro hm
      simp at hm
    · rename_i hAws
      simp only [Bool.not_eq_true, Bool.not_eq_false'] at hAws
      split
      · intro hm; simp at hm
      · split
        · intro hm; simp at hm
        · split
          · intro hm; simp at hm
          · intro hm
            simp only [List.mem_cons, List.not_mem_nil, or_false] at hm
            rcases hm with hm | hm
            · cases hm
              exact ⟨rfl, hAws⟩
            · cases hm
  · intro h1 h2 h3 h4
    simp [launchingCheckConfigMaps, String.append_assoc, h1, h2, h3, h4]

/-- A pending AWS cluster used by the C7 witness. -/
def cAWS : Cluster :=
  { metadata := { name := "c1" }
    spec := { masterVersion := "v1", cloud := some { aws := some {} } } }

theorem launchingCheckConfigMaps_awsOnly_witness :
    (launchingCheckConfigMaps ccW envOkW cW =
      { state := cW, yield := false, effects := [], err := none }) ∧
    Effect.createConfigMap (ccW.nsName cAWS.metadata.name) "aws-cloud-config"
      ∈ (launchingCheckConfigMaps ccW envOkW cAWS).effects :=
  ⟨(launchingCheckConfigMaps_awsOnly ccW envOkW cW).2.1 (by decide),
   (launchingCheckConfigMaps_awsOnly ccW envOkW cAWS).2.2.2 (by decide) (by decide) rfl rfl⟩

lemma apiserverAuthGen_none (env : Env) (c : Cluster) :
    ∀ res, apiserverAuthGen env c = Except.ok res → res = none := by
  intro res h
  unfold apiserverAuthGen at h
  split at h
  · exact absurd h (by simp)
  · cases h
    rfl

lemma pendingCheckSecretAuth_state (cc : ClusterController) (env : Env) (c : Cluster) :
    (pendingCheckSecret cc env c "apiserver-auth" (apiserverAuthGen env) false).state = c := by
  simp only [pendingCheckSecret]
  split
  · rfl
  · split
    · rfl
    · split
      · rfl
      · split
        · rfl
        · rename_i changed hgen
          have hnone := apiserverAuthGen_none env c changed hgen
          subst hnone
          split <;> rfl

/-- C6: in the secrets step the `apiserver-ssh` secret is force-recreated
exactly when `Status.ApiserverSSH` is empty — deleted when cached, then
created anew right after the delete — while `apiserver-auth` is never
deleted and is skipped whenever it is already cached. -/
theorem pendingCheckSecrets_sshForceRecreate (cc : ClusterController) (env : Env) (c : Cluster)
    (sshm : String)
    (hAuthParse : env.parseTemplate
      (cc.masterResourcesPath ++ "/" ++ "apiserver-auth" ++ "-secret.yaml") = Except.ok ())
    (hAuthGen : env.createApiserverAuth c = Except.ok ())
    (hAuthCreate : env.clientCreateSecret (cc.nsName c.metadata.name) "apiserver-auth" = none)
    (hSshDel : env.clientDeleteSecret (cc.nsName c.metadata.name) "apiserver-ssh" = none)
    (hSshParse : env.parseTemplate
      (cc.masterResourcesPath ++ "/" ++ "apiserver-ssh" ++ "-secret.yaml") = Except.ok ())
    (hSshGen : env.createApiserverSSH c = Except.ok sshm)
    (hSshCreate : env.clientCreateSecret (cc.nsName c.metadata.name) "apiserver-ssh" = none) :
    (∀ n1 n2, Effect.deleteSecret n1 n2 ∈ (pendingCheckSecrets cc env c).effects →
       n1 = cc.nsName c.metadata.name ∧ n2 = "apiserver-ssh") ∧
    (storeHas cc.secretStore
        (cc.nsName c.metadata.name ++ "/" ++ "apiserver-auth") = true →
       ∀ n1, Effect.createSecret n1 "apiserver-auth"
         ∉ (pendingCheckSecrets cc env c).effects) ∧
    (Effect.deleteSecret (cc.nsName c.metadata.name) "apiserver-ssh"
        ∈ (pendingCheckSecrets cc env c).effects ↔
       (c.status.apiserverSSH = "" ∧ storeHas cc.secretStore
         (cc.nsName c.metadata.name ++ "/" ++ "apiserver-ssh") = true)) ∧
    (c.status.apiserverSSH = "" →
       storeHas cc.secretStore (cc.nsName c.metadata.name ++ "/" ++ "apiserver-ssh") = true →
       ∃ pre, (pendingCheckSecrets cc env c).effects = pre ++
         [Effect.deleteSecret (cc.nsName c.metadata.name) "apiserver-ssh",
          Effect.createSecret (cc.nsName c.metadata.name) "apiserver-ssh",
          Effect.event "pending" ("Created secret \""
            ++ (cc.nsName c.metadata.name ++ "/" ++ "apiserver-ssh") ++ "\"")]) := by
  by_cases hA : storeHas cc.secretStore
      (cc.nsName c.metadata.name ++ "/" ++ "apiserver-auth") = true
  · have e1 : pendingCheckSecret cc env c "apiserver-auth" (apiserverAuthGen env) false =
        { state := c, yield := false, effects := [], err := none } := by
      simp [pendingCheckSecret, hA]
    have hcomp : pendingCheckSecrets cc env c =
        { pendingCheckSecret cc env c "apiserver-ssh" (apiserverSSHGen env)
            (decide (c.status.apiserverSSH = "")) with
          effects := [] ++ (pendingCheckSecret cc env c "apiserver-ssh" (apiserverSSHGen env)
            (decide (c.status.apiserverSSH = ""))).effects } := by
      simp only [pendingCheckSecrets, e1]
      rfl
    by_cases hE : c.status.apiserverSSH = ""
    · by_cases hS : storeHas cc.secretStore
          (cc.nsName c.metadata.name ++ "/" ++ "apiserver-ssh") = true
      · have e2 : pendingCheckSecret cc env c "apiserver-ssh" (apiserverSSHGen env)
            (decide (c.status.apiserverSSH = "")) =
            { state := { c with status := { c.status with apiserverSSH := sshm } }
              yield := true
              effects := [Effect.deleteSecret (cc.nsName c.metadata.name) "apiserver-ssh",
                Effect.createSecret (cc.nsName c.metadata.name) "apiserver-ssh",
                Effect.event "pending" ("Created secret \""
                  ++ (cc.nsName c.metadata.name ++ "/" ++ "apiserver-ssh") ++ "\"")]
              err := none } := by
          simp [pendingCheckSecret, apiserverSSHGen, hE, hS, hSshDel, hSshParse, hSshGen,
            hSshCreate]
        rw [hcomp, e2]
        refine ⟨?_, ?_, ?_, ?_⟩
        · intro n1 n2 h
          simp at h
          exact h
        · intro _ n1 h
          simp at h
        · simp [hE, hS]
        · intro _ _
          exact ⟨[], by simp⟩
      · have e2 : pendingCheckSecret cc env c "apiserver-ssh" (apiserverSSHGen env)
            (decide (c.status.apiserverSSH = "")) =
            { state := { c with status := { c.status with apiserverSSH := sshm } }
              yield := true
              effects := [Effect.createSecret (cc.nsName c.metadata.name) "apiserver-ssh",
                Effect.event "pending" ("Created secret \""
                  ++ (cc.nsName c.metadata.name ++ "/" ++ "apiserver-ssh") ++ "\"")]
              err := none } := by
          simp [pendingCheckSecret, apiserverSSHGen, hE, hS, hSshDel, hSshParse, hSshGen,
            hSshCreate]
        rw [hcomp, e2]
        refine ⟨?_, ?_, ?_, ?_⟩
        · intro n1 n2 h
          simp at h
        · intro _ n1 h
          simp at h
        · simp [hS]
        · intro _ hS'
          exact absurd hS' hS
    · by_cases hS : storeHas cc.secretStore
          (cc.nsName c.metadata.name ++ "/" ++ "apiserver-ssh") = true
      · have e2 : pendingCheckSecret cc env c "apiserver-ssh" (apiserverSSHGen env)
            (decide (c.status.apiserverSSH = "")) =
            { state := c, yield := false, effects := [], err := none } := by
          simp [pendingCheckSecret, hE, hS]
        rw [hcomp, e2]
        refine ⟨?_, ?_, ?_, ?_⟩
        · intro n1 n2 h
          simp at h
        · intro _ n1 h
          simp at h
        · simp [hE]
        · intro hE' _
          exact absurd hE' hE
      · have e2 : pendingCheckSecret cc env c "apiserver-ssh" (apiserverSSHGen env)
            (decide (c.status.apiserverSSH = "")) =
            { state := { c with status := { c.status with apiserverSSH := sshm } }
              yield := true
              effects := [Effect.createSecret (cc.nsName c.metadata.name) "apiserver-ssh",
                Effect.event "pending" ("Created secret \""
                  ++ (cc.nsName c.metadata.name ++ "/" ++ "apiserver-ssh") ++ "\"")]
              err := none } := by
          simp [pendingCheckSecret, apiserverSSHGen, hE, hS, hSshDel, hSshParse, hSshGen,
            hSshCreate]
        rw [hcomp, e2]
        refine ⟨?_, ?_, ?_, ?_⟩
        · intro n1 n2 h
          simp at h
        · intro _ n1 h
          simp at h
        · simp [hE]
        · intro hE' _
          exact absurd hE' hE
  · have e1 : pendingCheckSecret cc env c "apiserver-auth" (apiserverAuthGen env) false =
        { state := c, yield := false
          effects := [Effect.createSecret (cc.nsName c.metadata.name) "apiserver-auth",
            Effect.event "pending" ("Created secret \""
              ++ (cc.nsName c.metadata.name ++ "/" ++ "apiserver-auth") ++ "\"")]
          err := none } := by
      simp [pendingCheckSecret, apiserverAuthGen, hA, hAuthParse, hAuthGen, hAuthCreate]
    have hcomp : pendingCheckSecrets cc env c =
        { pendingCheckSecret cc env c "apiserver-ssh" (apiserverSSHGen env)
            (decide (c.status.apiserverSSH = "")) with
          effects := [Effect.createSecret (cc.nsName c.metadata.name) "apiserver-auth",
            Effect.event "pending" ("Created secret \""
              ++ (cc.nsName c.metadata.name ++ "/" ++ "apiserver-auth") ++ "\"")] ++
            (pendingCheckSecret cc env c "apiserver-ssh" (apiserverSSHGen env)
              (decide (c.status.apiserverSSH = ""))).effects } := by
      simp only [pendingCheckSecrets, e1]
      rfl
    by_cases hE : c.status.apiserverSSH = ""
    · by_cases hS : storeHas cc.secretStore
          (cc.nsName c.metadata.name ++ "/" ++ "apiserver-ssh") = true
      · have e2 : pendingCheckSecret cc env c "apiserver-ssh" (apiserverSSHGen env)
            (decide (c.status.apiserverSSH = "")) =
            { state := { c with status := { c.status with apiserverSSH := sshm } }
              yield := true
              effects := [Effect.deleteSecret (cc.nsName c.metadata.name) "apiserver-ssh",
                Effect.createSecret (cc.nsName c.metadata.name) "apiserver-ssh",
                Effect.event "pending" ("Created secret \""
                  ++ (cc.nsName c.metadata.name ++ "/" ++ "apiserver-ssh") ++ "\"")]
              err := none } := by
          simp [pendingCheckSecret, apiserverSSHGen, hE, hS, hSshDel, hSshParse, hSshGen,
            hSshCreate]
        rw [hcomp, e2]
        refine ⟨?_, ?_, ?_, ?_⟩
        · intro n1 n2 h
          simp at h
          exact h
        · intro hst _ _
          exact absurd hst hA
        · simp [hE, hS]
        · intro _ _
          refine ⟨[Effect.createSecret (cc.nsName c.metadata.name) "apiserver-auth",
            Effect.event "pending" ("Created secret \""
              ++ (cc.nsName c.metadata.name ++ "/" ++ "apiserver-auth") ++ "\"")], ?_⟩
          simp
      · have e2 : pendingCheckSecret cc env c "apiserver-ssh" (apiserverSSHGen env)
            (decide (c.status.apiserverSSH = "")) =
            { state := { c with status := { c.status with apiserverSSH := sshm } }
              yield := true
              effects := [Effect.createSecret (cc.nsName c.metadata.name) "apiserver-ssh",
                Effect.event "pending" ("Created secret \""
                  ++ (cc.nsName c.metadata.name ++ "/" ++ "apiserver-ssh") ++ "\"")]
              err := none } := by
          simp [pendingCheckSecret, apiserverSSHGen, hE, hS, hSshDel, hSshParse, hSshGen,
            hSshCreate]
        rw [hcomp, e2]
        refine ⟨?_, ?_, ?_, ?_⟩
        · intro n1 n2 h
          simp at h
        · intro hst _ _
          exact absurd hst hA
        · simp [hS]
        · intro _ hS'
          exact absurd hS' hS
    · by_cases hS : storeHas cc.secretStore
          (cc.nsName c.metadata.name ++ "/" ++ "apiserver-ssh") = true
      · have e2 : pendingCheckSecret cc env c "apiserver-ssh" (apiserverSSHGen env)
            (decide (c.status.apiserverSSH = "")) =
            { state := c, yield := false, effects := [], err := none } := by
          simp [pendingCheckSecret, hE, hS]
        rw [hcomp, e2]
        refine ⟨?_, ?_, ?_, ?_⟩
        · intro n1 n2 h
          simp at h
        · intro hst _ _
          exact absurd hst hA
        · simp [hE]
        · intro hE' _
          exact absurd hE' hE
      · have e2 : pendingCheckSecret cc env c "apiserver-ssh" (apiserverSSHGen env)
            (decide (c.status.apiserverSSH = "")) =
            { state := { c with status := { c.status with apiserverSSH := sshm } }
              yield := true
              effects := [Effect.createSecret (cc.nsName c.metadata.name) "apiserver-ssh",
                Effect.event "pending" ("Created secret \""
                  ++ (cc.nsName c.metadata.name ++ "/" ++ "apiserver-ssh") ++ "\"")]
              err := none } := by
          simp [pendingCheckSecret, apiserverSSHGen, hE, hS, hSshDel, hSshParse, hSshGen,
            hSshCreate]
        rw [hcomp, e2]
        refine ⟨?_, ?_, ?_, ?_⟩
        · intro n1 n2 h
          simp at h
        · intro hst _ _
          exact absurd hst hA
        · simp [hE]
        · intro hE' _
          exact absurd hE' hE

/-- A controller whose secret cache already holds both secrets of the
pending cluster `c1`, while its SSH status is still empty. -/
def ccC6 : ClusterController :=
  { ccW with secretStore := ["cluster-c1/apiserver-auth", "cluster-c1/apiserver-ssh"] }

theorem pendingCheckSecrets_sshForceRecreate_witness :
    (Effect.deleteSecret (ccC6.nsName cW.metadata.name) "apiserver-ssh"
        ∈ (pendingCheckSecrets ccC6 envOkW cW).effects ↔
      (cW.status.apiserverSSH = "" ∧ storeHas ccC6.secretStore
        (ccC6.nsName cW.metadata.name ++ "/" ++ "apiserver-ssh") = true)) ∧
    ∃ pre, (pendingCheckSecrets ccC6 envOkW cW).effects = pre ++
      [Effect.deleteSecret (ccC6.nsName cW.metadata.name) "apiserver-ssh",
       Effect.createSecret (ccC6.nsName cW.metadata.name) "apiserver-ssh",
       Effect.event "pending" ("Created secret \""
         ++ (ccC6.nsName cW.metadata.name ++ "/" ++ "apiserver-ssh") ++ "\"")] :=
  ⟨(pendingCheckSecrets_sshForceRecreate ccC6 envOkW cW "ssh-rsa AAAA"
      rfl rfl rfl rfl rfl rfl rfl).2.2.1,
   (pendingCheckSecrets_sshForceRecreate ccC6 envOkW cW "ssh-rsa AAAA"
      rfl rfl rfl rfl rfl rfl rfl).2.2.2 rfl (by decide)⟩

lemma stringAppendLeftCancel {a b c : String} (h : a ++ b = a ++ c) : b = c := by
  have hd := congrArg String.data h
  simp only [String.data_append] at hd
  have h2 := List.append_cancel_left hd
  cases b
  cases c
  exact congrArg String.mk h2

lemma launchingCheckDefaultPluginsLoop_effects (cc : ClusterController) (env : Env)
    (c : Cluster) (ns : String)
    (benign : ∀ nsx m, env.clientCreateAddon nsx m = none) :
    ∀ L acc, (launchingCheckDefaultPluginsLoop cc env c ns L acc).effects =
      acc ++ (L.filter (fun p => !(storeHas cc.addonStore
          (ns ++ "/" ++ ("addon-default-" ++ p.1))))).map
        (fun p => Effect.createAddon ("cluster-" ++ c.metadata.name)
          ("addon-default-" ++ p.1)) := by
  intro L
  induction L with
  | nil => intro acc; simp [launchingCheckDefaultPluginsLoop]
  | cons p rest ih =>
    intro acc
    obtain ⟨safeName, name⟩ := p
    simp only [launchingCheckDefaultPluginsLoop]
    split
    · rename_i hmem
      rw [ih]
      simp [List.filter_cons, hmem]
    · rename_i hmem
      simp only [benign]
      rw [ih]
      simp only [Bool.not_eq_true] at hmem
      simp [List.filter_cons, hmem, List.append_assoc]

/-- C10: in the default-plugins step every creation targets the namespace
`cluster-<name>`, while the existence probe looks up the
`NamespaceName`-derived key `<nsName(name)>/addon-default-<safe>`; a plugin
is created exactly when that probe key misses, so a previously created
add-on (cached under `cluster-<name>/…`) is skipped on retry only when the
two namespace forms coincide. -/
theorem launchingCheckDefaultPlugins_namespaces (cc : ClusterController) (env : Env)
    (c : Cluster) (benign : ∀ nsx m, env.clientCreateAddon nsx m = none) :
    (∀ nsx m, Effect.createAddon nsx m ∈ (launchingCheckDefaultPlugins cc env c).effects →
       nsx = "cluster-" ++ c.metadata.name) ∧
    (∀ p ∈ defaultPlugins,
       (Effect.createAddon ("cluster-" ++ c.metadata.name) ("addon-default-" ++ p.1)
          ∈ (launchingCheckDefaultPlugins cc env c).effects ↔
        storeHas cc.addonStore
          (cc.nsName c.metadata.name ++ "/" ++ ("addon-default-" ++ p.1)) = false)) ∧
    (cc.nsName c.metadata.name = "cluster-" ++ c.metadata.name →
       ∀ p ∈ defaultPlugins,
         storeHas cc.addonStore
           ("cluster-" ++ c.metadata.name ++ "/" ++ ("addon-default-" ++ p.1)) = true →
         Effect.createAddon ("cluster-" ++ c.metadata.name) ("addon-default-" ++ p.1)
           ∉ (launchingCheckDefaultPlugins cc env c).effects) ∧
    (∀ p ∈ defaultPlugins,
       storeHas cc.addonStore
         (cc.nsName c.metadata.name ++ "/" ++ ("addon-default-" ++ p.1)) = false →
       Effect.createAddon ("cluster-" ++ c.metadata.name) ("addon-default-" ++ p.1)
         ∈ (launchingCheckDefaultPlugins cc env c).effects) := by
  have heff : (launchingCheckDefaultPlugins cc env c).effects =
      (defaultPlugins.filter (fun p => !(storeHas cc.addonStore
          (cc.nsName c.metadata.name ++ "/" ++ ("addon-default-" ++ p.1))))).map
        (fun p => Effect.createAddon ("cluster-" ++ c.metadata.name)
          ("addon-default-" ++ p.1)) := by
    unfold launchingCheckDefaultPlugins
    rw [launchingCheckDefaultPluginsLoop_effects cc env c _ benign]
    simp
  have hiff : ∀ p ∈ defaultPlugins,
      (Effect.createAddon ("cluster-" ++ c.metadata.name) ("addon-default-" ++ p.1)
         ∈ (launchingCheckDefaultPlugins cc env c).effects ↔
       storeHas cc.addonStore
         (cc.nsName c.metadata.name ++ "/" ++ ("addon-default-" ++ p.1)) = false) := by
    intro p hp
    rw [heff]
    constructor
    · intro h
      simp only [List.mem_map, List.mem_filter] at h
      obtain ⟨p', ⟨_, hpred⟩, heq⟩ := h
      simp only [Effect.createAddon.injEq] at heq
      have hsafe : p'.1 = p.1 := stringAppendLeftCancel heq.2
      rw [hsafe] at hpred
      simpa using hpred
    · intro h
      refine List.mem_map.2 ⟨p, List.mem_filter.2 ⟨hp, ?_⟩, rfl⟩
      simp [h]
  refine ⟨?_, hiff, ?_, ?_⟩
  · intro nsx m h
    rw [heff] at h
    simp only [List.mem_map] at h
    obtain ⟨p', _, heq⟩ := h
    simp only [Effect.createAddon.injEq] at heq
    exact heq.1.symm
  · intro hns p hp hcache hmem
    have := (hiff p hp).1 hmem
    rw [hns] at this
    rw [this] at hcache
    cases hcache
  · intro p hp h
    exact (hiff p hp).2 h

/-- A controller whose `NamespaceName` does not coincide with the
`cluster-<name>` form used for add-on creation, with the previously
created flannel add-on cached under its creation namespace. -/
def ccC10 : ClusterController :=
  { ccW with
    nsName := fun n => "ns-" ++ n
    addonStore := ["cluster-c1/addon-default-flannelcni"] }

theorem launchingCheckDefaultPlugins_namespaces_witness :
    Effect.createAddon ("cluster-" ++ cW.metadata.name) ("addon-default-" ++ "flannelcni")
      ∈ (launchingCheckDefaultPlugins ccC10 envOkW cW).effects :=
  (launchingCheckDefaultPlugins_namespaces ccC10 envOkW cW (fun _ _ => rfl)).2.2.2
    ("flannelcni", "flannel-cni") (by decide) (by decide)

/-- C5 counterexample: with the `apiserver` service missing from the cache
and every port of the range taken, the reconcile does return the
`no free NodePort` error and creates nothing, but the in-memory cluster's
`Address.ApiserverExternalPort` does not keep its prior value 5 — the Go
multiple assignment overwrites it with the zero result of the failed
allocator, so the `Address` section of the record differs from the input. -/
def ccC5 : ClusterController :=
  { dc := "dc1"
    externalURL := "example.com"
    minAPIServerPort := 1
    maxAPIServerPort := 2
    defaultMasterVersion := mvW
    versions := [("v1", mvW)]
    nsName := fun n => "cluster-" ++ n
    secretStore := ["cluster-c1/token-users"]
    serviceStore := [("ns1/a", { ports := [{ nodePort := 1 }, { nodePort := 2 }] })] }

/-- A pending cluster that already carries a root CA and a non-zero
apiserver port in its address section. -/
def cC5 : Cluster :=
  { metadata := { name := "c1" }
    address := { url := "https://c1.dc1.example.com:5", apiserverExternalPort := 5 }
    status := { rootCA := { key := some "k", cert := some "ct" } } }

theorem portExhaustion_addressChanged_cx :
    storeHasKV ccC5.serviceStore "cluster-c1/apiserver" = false ∧
    portTaken ccC5 1 ∧ portTaken ccC5 2 ∧
    ccC5.minAPIServerPort = 1 ∧ ccC5.maxAPIServerPort = 2 ∧
    (syncPendingCluster ccC5 envOkW cC5).err = some (GoErr.noFreeNodePort 1 2) ∧
    (syncPendingCluster ccC5 envOkW cC5).effects = [] ∧
    cC5.address.apiserverExternalPort = 5 ∧
    (syncPendingCluster ccC5 envOkW cC5).state.address.apiserverExternalPort = 0 ∧
    (syncPendingCluster ccC5 envOkW cC5).state.address ≠ cC5.address := by
  decide

/-- C5 (amended): when the apiserver service is missing from the cache and
the whole port range is taken, a reconcile that reaches the public-service
step returns the `no free NodePort` error, creates no service (and issues
no effect at all), leaves `Address.URL` at its prior value — but
overwrites `Address.ApiserverExternalPort` with 0, the zero value the Go
multiple assignment stores alongside the allocator error; only when the
prior port was already 0 is the address unchanged. -/
theorem syncPendingCluster_portExhaustion (cc : ClusterController) (env : Env) (c : Cluster)
    (hto : env.checkTimeoutErr = none)
    (hca : c.status.rootCA.key.isSome = true)
    (htk : storeHas cc.secretStore (cc.nsName c.metadata.name ++ "/token-users") = true)
    (hsvc : storeHasKV cc.serviceStore (cc.nsName c.metadata.name ++ "/apiserver") = false)
    (hfull : ∀ q, cc.minAPIServerPort ≤ q → q ≤ cc.maxAPIServerPort → portTaken cc q) :
    syncPendingCluster cc env c =
      { state := { c with address := { c.address with apiserverExternalPort := 0 } }
        yield := false, effects := []
        err := some (GoErr.noFreeNodePort cc.minAPIServerPort cc.maxAPIServerPort) } := by
  have h1 : pendingCreateRootCA cc env c =
      { state := c, yield := false, effects := [], err := none } := by
    simp [pendingCreateRootCA, hca]
  have h2 : launchingCheckTokenUsers cc env c =
      { state := c, yield := false, effects := [], err := none } := by
    simp [launchingCheckTokenUsers, htk]
  have hport : GetFreeNodePort cc =
      Except.error (GoErr.noFreeNodePort cc.minAPIServerPort cc.maxAPIServerPort) := by
    unfold GetFreeNodePort findFreePort
    rw [findFreePortGo_exhausted (usedNodePorts cc) cc.maxAPIServerPort _ _ rfl
      (fun q hq hle => (mem_usedNodePorts cc q).2 (hfull q hq hle))]
  have h3 : launchingCheckApiserverPublicService cc env c =
      { state := { c with address := { c.address with apiserverExternalPort := 0 } }
        yield := false, effects := []
        err := some (GoErr.noFreeNodePort cc.minAPIServerPort cc.maxAPIServerPort) } := by
    simp [launchingCheckApiserverPublicService, hsvc, hport]
  simp only [syncPendingCluster, hto]
  rw [SyncState.stepYield_run_pass _ _ _ (by rw [h1]) (by rw [h1])]
  simp only [h1, List.append_nil]
  rw [SyncState.stepYield_run_pass _ _ _ (by rw [h2]) (by rw [h2])]
  simp only [h2, List.append_nil]
  rw [SyncState.stepYield_run_fail _ _ _ (by rw [h3]; rfl)]
  simp only [SyncState.stepYield_done, SyncState.stepErrOnly_done, SyncState.finish, h3,
    List.append_nil]

theorem syncPendingCluster_portExhaustion_witness :
    syncPendingCluster ccC5 envOkW cC5 =
      { state := { cC5 with address := { cC5.address with apiserverExternalPort := 0 } }
        yield := false, effects := []
        err := some (GoErr.noFreeNodePort ccC5.minAPIServerPort ccC5.maxAPIServerPort) } :=
  syncPendingCluster_portExhaustion ccC5 envOkW cC5 rfl (by decide) (by decide) (by decide)
    (fun q hq1 hq2 => by
      have hq1' : (1 : Int) ≤ q := hq1
      have hq2' : q ≤ (2 : Int) := hq2
      have hq : q = 1 ∨ q = 2 := by omega
      rcases hq with rfl | rfl <;> decide)
